import Mathlib

/-!
# fskit: directory handles, readdir and unlink

A shallow embedding of `readdir.cpp`, `opendir.cpp`, `closedir.cpp` and
`libfskit/unlink.c`.  Heap objects (entries, directory handles) live in total
maps indexed by addresses; a NULL pointer is `none`.  The locks held by the
calling thread are an explicit list, so that lock balance can be stated.
Everything the sources call but do not define (lock primitives, allocator,
path helpers, the resolver walk, the name hash) is either an oracle of `Env`
or a definition modelled from the specification and marked as such.  The
extended-attribute functions, exercised by `test/test-xattr.cpp`, are modelled
from the specification as a whole.
-/

namespace Fskit

/-- Addresses of heap objects. -/
abbrev Ptr := Nat

/-! ## Error numbers (the values of section 6 of the specification) -/

def ENOENT : Int := 2
def EBADF : Int := 9
def ENOMEM : Int := 12
def ENOTDIR : Int := 20
def EISDIR : Int := 21
def ENAMETOOLONG : Int := 36

/-- The largest `uint64_t`. -/
def UINT64_MAX : Nat := 2 ^ 64 - 1

/-! ## Data model -/

/-- Modelled from the spec: the entry type tags (`entry.h` is not among the
sources): regular, directory, fifo, socket, chardev, blockdev, symlink, dead. -/
inductive fskit_entry_type
  | FSKIT_ENTRY_TYPE_FILE
  | FSKIT_ENTRY_TYPE_DIR
  | FSKIT_ENTRY_TYPE_FIFO
  | FSKIT_ENTRY_TYPE_SOCK
  | FSKIT_ENTRY_TYPE_CHR
  | FSKIT_ENTRY_TYPE_BLK
  | FSKIT_ENTRY_TYPE_LNK
  | FSKIT_ENTRY_TYPE_DEAD
  deriving DecidableEq, Repr

open fskit_entry_type

/-- Modelled from the spec: one slot of a child index (the entry-set is not
among the sources).  A slot keeps the key, its precomputed hash and the child
pointer; a removed child leaves a tombstone (`child = none`). -/
structure fskit_dirent where
  name : String
  name_hash : Int
  child : Option Ptr
  deriving DecidableEq, Repr

/-- The fields of `struct fskit_entry` that the embedded functions touch. -/
structure fskit_entry where
  file_id : Nat
  type : fskit_entry_type
  name : Option String
  deletion_in_progress : Bool
  open_count : Int
  link_count : Int
  children : List fskit_dirent
  app_data : Nat
  deriving DecidableEq, Repr

/-- The directory handle `struct fskit_dir_handle`. -/
structure fskit_dir_handle where
  dent : Option Ptr
  path : Option String
  file_id : Nat
  app_data : Nat
  deriving DecidableEq, Repr

/-- The value `struct fskit_dir_entry` returned by readdir. -/
structure fskit_dir_entry where
  type : fskit_entry_type
  file_id : Nat
  name : String
  deriving DecidableEq, Repr

/-- What a lock belongs to: an entry or a directory handle. -/
inductive LockTarget
  | entry (p : Ptr)
  | handle (p : Ptr)
  deriving DecidableEq, Repr

/-- The mode in which a readers/writer lock is held. -/
inductive LockMode
  | rd
  | wr
  deriving DecidableEq, Repr

/-- The memory seen by one calling thread: the entries, the directory handles,
the locks this thread holds (most recent first) and the objects handed to
`free`. -/
structure fskit_state where
  entries : Ptr → fskit_entry
  handles : Ptr → fskit_dir_handle
  held : List (LockTarget × LockMode)
  freed : List LockTarget

/-- The environment of the embedded code: what the sources call without
defining it, and the outcomes the code cannot control. -/
structure Env where
  /-- The hash `fskit_entry_name_hash` of a name. -/
  fskit_entry_name_hash : String → Int
  /-- The result of the pthread lock call on an entry (0 is success). -/
  entry_lock_rc : Ptr → Int
  /-- The result of the pthread lock call on a directory handle. -/
  handle_lock_rc : Ptr → Int
  /-- Whether `CALLOC_LIST` of that many list slots succeeds. -/
  calloc_list_ok : Nat → Bool
  /-- Whether the allocations of one `fskit_dir_entry` of that name succeed. -/
  dir_entry_alloc_ok : String → Bool
  /-- The constant `PATH_MAX`. -/
  PATH_MAX : Nat
  /-- The path normaliser `fskit_sanitize_path`. -/
  fskit_sanitize_path : String → String
  /-- The helper `fskit_dirname`; `none` is NULL (out of memory). -/
  fskit_dirname : String → Option String
  /-- The helper `fskit_basename`; `none` is NULL (out of memory). -/
  fskit_basename : String → Option String
  /-- The walk of the path resolver over the tree: the terminal entry, or
  the error code. -/
  walk : (Ptr → fskit_entry) → String → Nat → Nat → Except Int Ptr
  /-- The negative code the destruction of an entry reports, or 0. -/
  destroy_rc : Ptr → Int
  /-- The address `CALLOC_LIST` hands out for a new directory handle. -/
  calloc_dir_handle : (Ptr → fskit_dir_handle) → List LockTarget → Ptr

/-! ## Locks -/

/-- Record that the thread now holds the lock of `t` in mode `m`. -/
def acquire (st : fskit_state) (t : LockTarget) (m : LockMode) : fskit_state :=
  { st with held := (t, m) :: st.held }

/-- Drop the most recent hold on the lock of `t`. -/
def release (st : fskit_state) (t : LockTarget) : fskit_state :=
  { st with held := st.held.eraseP (fun h => decide (h.1 = t)) }

/-- The wrapper `fskit_entry_rlock`: the lock is held exactly when it returns 0. -/
def fskit_entry_rlock (env : Env) (st : fskit_state) (p : Ptr) : Int × fskit_state :=
  if env.entry_lock_rc p = 0 then (0, acquire st (.entry p) .rd) else (env.entry_lock_rc p, st)

/-- The wrapper `fskit_entry_wlock`. -/
def fskit_entry_wlock (env : Env) (st : fskit_state) (p : Ptr) : Int × fskit_state :=
  if env.entry_lock_rc p = 0 then (0, acquire st (.entry p) .wr) else (env.entry_lock_rc p, st)

/-- The wrapper `fskit_entry_unlock`. -/
def fskit_entry_unlock (st : fskit_state) (p : Ptr) : fskit_state :=
  release st (.entry p)

/-- The wrapper `fskit_dir_handle_rlock`. -/
def fskit_dir_handle_rlock (env : Env) (st : fskit_state) (p : Ptr) : Int × fskit_state :=
  if env.handle_lock_rc p = 0 then (0, acquire st (.handle p) .rd) else (env.handle_lock_rc p, st)

/-- The wrapper `fskit_dir_handle_wlock`. -/
def fskit_dir_handle_wlock (env : Env) (st : fskit_state) (p : Ptr) : Int × fskit_state :=
  if env.handle_lock_rc p = 0 then (0, acquire st (.handle p) .wr) else (env.handle_lock_rc p, st)

/-- The wrapper `fskit_dir_handle_unlock`. -/
def fskit_dir_handle_unlock (st : fskit_state) (p : Ptr) : fskit_state :=
  release st (.handle p)

/-! ## Child index -/

/-- Modelled from the spec: `child_at(i)` of the child index (the entry-set is
not among the sources): the child at position `i`, or none for a tombstone or
a position past the end. -/
def fskit_entry_set_child_at (children : List fskit_dirent) (i : Nat) : Option Ptr :=
  (children[i]?).bind (fun d => d.child)

/-- Modelled from the spec: the precomputed name hash stored at position `i`
of the child index (the entry-set is not among the sources). -/
def fskit_entry_set_name_hash_at (children : List fskit_dirent) (i : Nat) : Int :=
  ((children[i]?).map (fun d => d.name_hash)).getD 0

/-! ## readdir.cpp -/

/-- The allocator `CALLOC_LIST` for a list of pointers: all slots NULL, or NULL
when memory is short. -/
def CALLOC_LIST (env : Env) (n : Nat) : Option (List (Option fskit_dir_entry)) :=
  if env.calloc_list_ok n then some (List.replicate n none) else none

/-- The function `fskit_make_dir_entry`: copy type, file-id and the given name;
NULL when out of memory. -/
def fskit_make_dir_entry (env : Env) (dent : fskit_entry) (name : String) :
    Option fskit_dir_entry :=
  if env.dir_entry_alloc_ok name then
    some { type := dent.type, file_id := dent.file_id, name := name }
  else none

/-- The variables of the loop of `fskit_readdir_lowlevel`. -/
structure scan_state where
  dir_ents : List (Option fskit_dir_entry)
  next : Nat
  st : fskit_state

/-- The tail of the loop body (`// do we have an entry`): store a non-NULL
`dir_ent` at `dir_ents[next]` and advance `next`. -/
def store_dir_ent (s : scan_state) (st : fskit_state) (dir_ent : Option fskit_dir_entry) :
    scan_state :=
  match dir_ent with
  | some d => { dir_ents := s.dir_ents.set s.next (some d), next := s.next + 1, st := st }
  | none => { s with st := st }

/-- One iteration of the loop of `fskit_readdir_lowlevel` at position `i`.
An error carries the code for `*err` and the memory at the early return. -/
def readdir_lowlevel_body (env : Env) (dent : Ptr) (i : Nat) (s : scan_state) :
    Except (Int × fskit_state) scan_state :=
  let children := (s.st.entries dent).children
  match fskit_entry_set_child_at children i with
  | none => .ok s
  | some fent =>
    let fent_name_hash := fskit_entry_set_name_hash_at children i
    if fent_name_hash = env.fskit_entry_name_hash "." then
      .ok (store_dir_ent s s.st (fskit_make_dir_entry env (s.st.entries dent) "."))
    else if fent_name_hash = env.fskit_entry_name_hash ".." then
      if dent ≠ fent then
        let (rc, st1) := fskit_entry_rlock env s.st fent
        if rc ≠ 0 then .error (rc, st1)
        else
          let dir_ent := fskit_make_dir_entry env (st1.entries fent) ".."
          .ok (store_dir_ent s (fskit_entry_unlock st1 fent) dir_ent)
      else
        .ok (store_dir_ent s s.st (fskit_make_dir_entry env (s.st.entries fent) ".."))
    else
      let (rc, st1) := fskit_entry_rlock env s.st fent
      if rc ≠ 0 then .error (rc, st1)
      else
        let e := st1.entries fent
        if e.deletion_in_progress || decide (e.type = FSKIT_ENTRY_TYPE_DEAD) || e.name.isNone then
          .ok { s with st := st1 }
        else
          let dir_ent := fskit_make_dir_entry env e (e.name.getD "")
          .ok (store_dir_ent s (fskit_entry_unlock st1 fent) dir_ent)

/-- The loop `for( i = child_offset; i < max_read; i++ )`, by the number of
iterations still to run. -/
def readdir_lowlevel_loop (env : Env) (dent : Ptr) :
    Nat → Nat → scan_state → Except (Int × fskit_state) scan_state
  | 0, _, s => .ok s
  | k + 1, i, s =>
    match readdir_lowlevel_body env dent i s with
    | .error e => .error e
    | .ok s1 => readdir_lowlevel_loop env dent k (i + 1) s1

/-- What a readdir call leaves behind: the returned list (`none` is NULL), the
caller's `*num_read` and `*err`, and the memory. -/
structure readdir_result where
  dents : Option (List (Option fskit_dir_entry))
  num_read : Nat
  err : Int
  st : fskit_state

/-- The function `fskit_readdir_lowlevel`.  `num_read` and `err` are the values
the caller's variables hold on entry.  The loop runs for `i` from
`child_offset` while `i < max_read`, that is `max_read - child_offset` times. -/
def fskit_readdir_lowlevel (env : Env) (st : fskit_state) (dent : Ptr)
    (child_offset num_children num_read : Nat) (err : Int) : readdir_result :=
  let children := (st.entries dent).children
  if children.length ≤ child_offset then
    { dents := CALLOC_LIST env 1, num_read := num_read, err := err, st := st }
  else
    let max_read := min (children.length - child_offset) num_children
    match CALLOC_LIST env (max_read + 1) with
    | none => { dents := none, num_read := num_read, err := -ENOMEM, st := st }
    | some dir_ents =>
      match readdir_lowlevel_loop env dent (max_read - child_offset) child_offset
          { dir_ents := dir_ents, next := 0, st := st } with
      | .error (rc, st1) => { dents := none, num_read := num_read, err := rc, st := st1 }
      | .ok s => { dents := some s.dir_ents, num_read := s.next, err := err, st := s.st }

/-- The function `fskit_readdir`. -/
def fskit_readdir (env : Env) (st : fskit_state) (dirh : Ptr)
    (child_offset num_children num_read : Nat) (err : Int) : readdir_result :=
  let (rc, st1) := fskit_dir_handle_rlock env st dirh
  if rc ≠ 0 then { dents := none, num_read := num_read, err := rc, st := st1 }
  else
    match (st1.handles dirh).dent with
    | none =>
      { dents := none, num_read := num_read, err := -EBADF,
        st := fskit_dir_handle_unlock st1 dirh }
    | some dent =>
      let (rc, st2) := fskit_entry_rlock env st1 dent
      if rc ≠ 0 then
        { dents := none, num_read := num_read, err := rc,
          st := fskit_dir_handle_unlock st2 dirh }
      else
        let r := fskit_readdir_lowlevel env st2 dent child_offset num_children num_read err
        { r with st := fskit_dir_handle_unlock (fskit_entry_unlock r.st dent) dirh }

/-- The function `fskit_listdir`. -/
def fskit_listdir (env : Env) (st : fskit_state) (dirh : Ptr) (num_read : Nat) (err : Int) :
    readdir_result :=
  fskit_readdir env st dirh 0 UINT64_MAX num_read err

/-- The entries a caller reads off a returned list: those before the first
NULL slot (the walk of `fskit_dir_entry_free_list`). -/
def dir_entry_list : List (Option fskit_dir_entry) → List fskit_dir_entry
  | some d :: rest => d :: dir_entry_list rest
  | _ => []

/-! ## The resolver and the destruction helpers -/

/-- Modelled from the spec: `fskit_entry_resolve_path` is not among the
sources.  "For the final segment: acquire the terminal entry under the
requested mode.  Return it still locked."  The walk over the segments is the
oracle `Env.walk`; on failure NULL is returned and `*err` holds the code, on
success `*err` is left alone. -/
def fskit_entry_resolve_path (env : Env) (st : fskit_state) (path : String)
    (user group : Nat) (writelock : Bool) (err : Int) : Option Ptr × Int × fskit_state :=
  match env.walk st.entries path user group with
  | .error e => (none, e, st)
  | .ok p => (some p, err, acquire st (.entry p) (if writelock then .wr else .rd))

/-- Overwrite one entry of the memory. -/
def set_entry (st : fskit_state) (p : Ptr) (e : fskit_entry) : fskit_state :=
  { st with entries := fun q => if q = p then e else st.entries q }

/-- The call `free( p )`. -/
def free (st : fskit_state) (t : LockTarget) : fskit_state :=
  { st with freed := t :: st.freed }

/-- Modelled from the spec: `fskit_entry_try_destroy` is not among the sources.
"Assumes the caller holds the write lock; returns destroyed if link-count == 0
and open-count == 0 (and frees content, xattrs, and clears storage,
surrendering app-data), kept otherwise, or error.  On destroyed the lock is
released as part of destruction."  Destroyed is 1, kept is 0; the spec does
not say when an error arises, so the environment decides it: an error is the
negative code of the oracle `Env.destroy_rc` and leaves everything as it was.
The second component is the caller's `*app_data`. -/
def fskit_entry_try_destroy (env : Env) (st : fskit_state) (fent : Ptr)
    (app_data : Option Nat) : Int × Option Nat × fskit_state :=
  let e := st.entries fent
  if env.destroy_rc fent < 0 then (env.destroy_rc fent, app_data, st)
  else if e.link_count = 0 ∧ e.open_count = 0 then
    let dead : fskit_entry :=
      { e with type := FSKIT_ENTRY_TYPE_DEAD, name := none, children := [], app_data := 0 }
    (1, app_data.map (fun _ => e.app_data), fskit_entry_unlock (set_entry st fent dead) fent)
  else (0, app_data, st)

/-- Modelled from the spec: `fskit_entry_try_destroy_and_free` is not among the
sources.  It "additionally frees the entry container itself and invokes the
registered detach hook"; no hook is registered here. -/
def fskit_entry_try_destroy_and_free (env : Env) (st : fskit_state) (fent : Ptr) :
    Int × fskit_state :=
  let r := fskit_entry_try_destroy env st fent none
  if r.1 > 0 then (r.1, free r.2.2 (.entry fent)) else (r.1, r.2.2)

/-- Modelled from the spec: `find(name)` of the child index (the entry-set is
not among the sources): the child stored under that name, if any.  "A fast
path compares by precomputed name hash before string equality." -/
def fskit_entry_set_find_name (env : Env) (children : List fskit_dirent) (name : String) :
    Option Ptr :=
  (children.find? (fun d => d.child.isSome && decide (d.name_hash = env.fskit_entry_name_hash name)
    && decide (d.name = name))).bind (fun d => d.child)

/-- Modelled from the spec: `remove(name)` of the child index with tombstones:
every slot stored under that name loses its child. -/
def fskit_entry_set_remove (children : List fskit_dirent) (name : String) : List fskit_dirent :=
  children.map (fun d => if d.name = name then { d with child := none } else d)

/-- Modelled from the spec: `fskit_entry_detach_lowlevel` is not among the
sources.  "Detach from parent's child index (decrement link-count)"; the name
of an entry is "null once detached".  An entry that is not in the index under
its name gives -ENOENT. -/
def fskit_entry_detach_lowlevel (st : fskit_state) (parent child : Ptr) : Int × fskit_state :=
  let pe := st.entries parent
  let ce := st.entries child
  match ce.name with
  | none => (-ENOENT, st)
  | some nm =>
    if pe.children.any (fun d => decide (d.name = nm) && decide (d.child = some child)) then
      let st1 := set_entry st parent { pe with children := fskit_entry_set_remove pe.children nm }
      let ce1 := st1.entries child
      (0, set_entry st1 child { ce1 with link_count := ce1.link_count - 1, name := none })
    else (-ENOENT, st)

/-! ## opendir.cpp -/

/-- The function `fskit_dir_handle_create`.  The source does not test the
allocation, so the handle always exists. -/
def fskit_dir_handle_create (env : Env) (st : fskit_state) (dir : Ptr) (path : String)
    (app_handle_data : Nat) : Ptr × fskit_state :=
  let dirh := env.calloc_dir_handle st.handles st.freed
  let h : fskit_dir_handle :=
    { dent := some dir, path := some path, file_id := (st.entries dir).file_id,
      app_data := app_handle_data }
  (dirh, { st with handles := fun p => if p = dirh then h else st.handles p })

/-- What an opendir call leaves behind: the handle (`none` is NULL), the
caller's `*err` and the memory. -/
structure opendir_result where
  dirh : Option Ptr
  err : Int
  st : fskit_state

/-- The function `fskit_opendir`; `err` is the value of `*err` on entry. -/
def fskit_opendir (env : Env) (st : fskit_state) (_path : String) (user group : Nat)
    (app_handle_data : Nat) (err : Int) : opendir_result :=
  if _path.utf8ByteSize ≥ env.PATH_MAX then
    { dirh := none, err := -ENAMETOOLONG, st := st }
  else
    let path := env.fskit_sanitize_path _path
    match fskit_entry_resolve_path env st path user group true err with
    | (none, err1, st1) => { dirh := none, err := err1, st := st1 }
    | (some dir, err1, st1) =>
      if (st1.entries dir).type ≠ FSKIT_ENTRY_TYPE_DIR then
        { dirh := none, err := -ENOTDIR, st := fskit_entry_unlock st1 dir }
      else
        let d := st1.entries dir
        let st2 := set_entry st1 dir { d with open_count := d.open_count + 1 }
        let (dirh, st3) := fskit_dir_handle_create env st2 dir path app_handle_data
        { dirh := some dirh, err := err1, st := fskit_entry_unlock st3 dir }

/-! ## closedir.cpp -/

/-- The function `fskit_dir_handle_destroy`: hand back the app data, clear
the handle and free it. -/
def fskit_dir_handle_destroy (st : fskit_state) (dirh : Ptr) (app_handle_data : Option Nat) :
    Option Nat × fskit_state :=
  let out := app_handle_data.map (fun _ => (st.handles dirh).app_data)
  let zero : fskit_dir_handle := { dent := none, path := none, file_id := 0, app_data := 0 }
  (out, free { st with handles := fun p => if p = dirh then zero else st.handles p }
    (.handle dirh))

/-- What a closedir call leaves behind: the return code, the caller's
`*app_handle_data` and `*app_dir_data` (`none` when the pointer is NULL) and
the memory. -/
structure closedir_result where
  rc : Int
  app_handle_data : Option Nat
  app_dir_data : Option Nat
  st : fskit_state

/-- The function `fskit_closedir`. -/
def fskit_closedir (env : Env) (st : fskit_state) (dirh : Ptr)
    (app_handle_data app_dir_data : Option Nat) : closedir_result :=
  let (rc, st1) := fskit_dir_handle_wlock env st dirh
  if rc ≠ 0 then
    { rc := rc, app_handle_data := app_handle_data, app_dir_data := app_dir_data, st := st1 }
  else
    match (st1.handles dirh).dent with
    | none =>
      { rc := -EBADF, app_handle_data := app_handle_data, app_dir_data := app_dir_data,
        st := fskit_dir_handle_unlock st1 dirh }
    | some dent =>
      let (rc, st2) := fskit_entry_wlock env st1 dent
      if rc ≠ 0 then
        { rc := rc, app_handle_data := app_handle_data, app_dir_data := app_dir_data,
          st := fskit_dir_handle_unlock st2 dirh }
      else
        let (rc, dir_data, st3) := fskit_entry_try_destroy env st2 dent app_dir_data
        if rc > 0 then
          let st4 := free st3 (.entry dent)
          let out := app_handle_data.map (fun _ => (st4.handles dirh).app_data)
          let (out1, st5) := fskit_dir_handle_destroy (fskit_dir_handle_unlock st4 dirh) dirh out
          { rc := 0, app_handle_data := out1, app_dir_data := dir_data, st := st5 }
        else if rc < 0 then
          { rc := rc, app_handle_data := app_handle_data, app_dir_data := dir_data,
            st := fskit_entry_unlock st3 dent }
        else
          let st4 := fskit_entry_unlock st3 dent
          let out := app_handle_data.map (fun _ => (st4.handles dirh).app_data)
          let (out1, st5) := fskit_dir_handle_destroy (fskit_dir_handle_unlock st4 dirh) dirh out
          { rc := 0, app_handle_data := out1, app_dir_data := dir_data, st := st5 }

/-! ## libfskit/unlink.c -/

/-- The function `fskit_unlink`.  When the resolver returns NULL the source
passes NULL to `fskit_entry_unlock`; no lock changes hands there. -/
def fskit_unlink (env : Env) (st : fskit_state) (path : String) (owner group : Nat) :
    Int × fskit_state :=
  match env.fskit_dirname path, env.fskit_basename path with
  | some path_dirname, some path_basename =>
    match fskit_entry_resolve_path env st path_dirname owner group true 0 with
    | (none, err, st1) => (err, st1)
    | (some parent, err, st1) =>
      if err ≠ 0 then (err, fskit_entry_unlock st1 parent)
      else if (st1.entries parent).type ≠ FSKIT_ENTRY_TYPE_DIR then
        (-ENOTDIR, fskit_entry_unlock st1 parent)
      else
        match fskit_entry_set_find_name env (st1.entries parent).children path_basename with
        | none => (-ENOENT, fskit_entry_unlock st1 parent)
        | some fent =>
          let st2 := (fskit_entry_wlock env st1 fent).2
          let (rc, st3) := fskit_entry_detach_lowlevel st2 parent fent
          if rc ≠ 0 ∧ rc ≠ -ENOENT then
            (rc, fskit_entry_unlock (fskit_entry_unlock st3 fent) parent)
          else
            let (rc, st4) := fskit_entry_try_destroy_and_free env st3 fent
            if rc > 0 then (0, fskit_entry_unlock st4 parent)
            else (rc, fskit_entry_unlock (fskit_entry_unlock st4 fent) parent)
  | _, _ => (-ENOMEM, st)

/-! ## Definitions used to state the properties -/

/-- The outcome of the scan at position `i`: what one loop iteration finds to store. -/
def scan_at (env : Env) (entries : Ptr → fskit_entry) (dent : Ptr) (i : Nat) :
    Option fskit_dir_entry :=
  let children := (entries dent).children
  match fskit_entry_set_child_at children i with
  | none => none
  | some fent =>
    if fskit_entry_set_name_hash_at children i = env.fskit_entry_name_hash "." then
      fskit_make_dir_entry env (entries dent) "."
    else if fskit_entry_set_name_hash_at children i = env.fskit_entry_name_hash ".." then
      fskit_make_dir_entry env (entries fent) ".."
    else
      let e := entries fent
      if e.deletion_in_progress || decide (e.type = FSKIT_ENTRY_TYPE_DEAD) || e.name.isNone then none
      else fskit_make_dir_entry env e (e.name.getD "")

/-- The positions the loop of `fskit_readdir_lowlevel` visits in a child index
of `n` slots: `i` from `child_offset` while `i < max_read`. -/
def scan_window (n child_offset num_children : Nat) : List Nat :=
  List.range' child_offset (min (n - child_offset) num_children - child_offset)

/-- Specification side: a position that readdir leaves out, namely a position
past the end, a tombstoned (NULL) slot, or an ordinary child (neither `.` nor
`..`) whose deletion_in_progress flag is set, whose type is dead or whose name
is NULL. -/
def spec_skipped (env : Env) (entries : Ptr → fskit_entry) (dent : Ptr) (i : Nat) : Bool :=
  match (entries dent).children[i]? with
  | none => true
  | some d =>
    match d.child with
    | none => true
    | some fent =>
      decide (d.name_hash ≠ env.fskit_entry_name_hash ".") &&
      decide (d.name_hash ≠ env.fskit_entry_name_hash "..") &&
      ((entries fent).deletion_in_progress || decide ((entries fent).type = FSKIT_ENTRY_TYPE_DEAD)
        || (entries fent).name.isNone)

/-- Specification side: the snapshot (type, file-id, name) of the child at position
`i`: `.` carries the values of the directory itself, `..` those of the entry
its slot points to, any other child its own values and name. -/
def spec_snapshot (env : Env) (entries : Ptr → fskit_entry) (dent : Ptr) (i : Nat) :
    Option fskit_dir_entry :=
  match (entries dent).children[i]? with
  | none => none
  | some d =>
    match d.child with
    | none => none
    | some fent =>
      if d.name_hash = env.fskit_entry_name_hash "." then
        some { type := (entries dent).type, file_id := (entries dent).file_id, name := "." }
      else if d.name_hash = env.fskit_entry_name_hash ".." then
        some { type := (entries fent).type, file_id := (entries fent).file_id, name := ".." }
      else
        match (entries fent).name with
        | none => none
        | some nm =>
          some { type := (entries fent).type, file_id := (entries fent).file_id, name := nm }

/-- Specification side: the snapshots readdir owes for a list of positions, in
order: one per position that is not left out. -/
def spec_listing (env : Env) (entries : Ptr → fskit_entry) (dent : Ptr) (window : List Nat) :
    List fskit_dir_entry :=
  window.filterMap (fun i => if spec_skipped env entries dent i then none
    else spec_snapshot env entries dent i)

/-! ## A concrete tree for the examples

Address 9 is the root, 0 is `/a`, 1 is `/a/b`; 2, 3, 4 are the files `c`, `d`,
`e`; 5 is a file whose deletion is in progress; 6 is a dead entry. -/

/-- A name hash for the examples. -/
def demo_hash (s : String) : Int :=
  if s = "." then 1 else if s = ".." then 2 else 3 + s.length

/-- The environment of the examples: every lock is granted, memory suffices,
`destroy` reports no error. -/
def demo_env : Env where
  fskit_entry_name_hash := demo_hash
  entry_lock_rc := fun _ => 0
  handle_lock_rc := fun _ => 0
  calloc_list_ok := fun _ => true
  dir_entry_alloc_ok := fun _ => true
  PATH_MAX := 4096
  fskit_sanitize_path := id
  fskit_dirname := fun s =>
    if s = "/a/b/c" then some "/a/b" else if s = "/a/b" then some "/a"
    else if s = "/a/b/c/x" then some "/a/b/c" else if s = "/a/b/zz" then some "/a/b"
    else some "/"
  fskit_basename := fun s =>
    if s = "/a/b/c" then some "c" else if s = "/a/b" then some "b"
    else if s = "/a/b/c/x" then some "x" else if s = "/a/b/zz" then some "zz" else some "a"
  walk := fun _ s _ _ =>
    if s = "/" then .ok 9 else if s = "/a" then .ok 0 else if s = "/a/b" then .ok 1
    else if s = "/a/b/c" then .ok 2 else .error (-ENOENT)
  destroy_rc := fun _ => 0
  calloc_dir_handle := fun _ _ => 10

/-- The environment of the examples, except that destruction reports the
input/output error -5. -/
def demo_env_destroy_fails : Env :=
  { demo_env with destroy_rc := fun _ => -5 }

/-- A slot of the examples: the key, its hash and the child. -/
def demo_slot (name : String) (p : Ptr) : fskit_dirent :=
  { name := name, name_hash := demo_hash name, child := some p }

/-- An entry of the examples. -/
def demo_entry (id : Nat) (t : fskit_entry_type) (name : String) (children : List fskit_dirent) :
    fskit_entry :=
  { file_id := id, type := t, name := some name, deletion_in_progress := false,
    open_count := 0, link_count := 1, children := children, app_data := 0 }

/-- The entries of the examples; `bs` is the child index of `/a/b`. -/
def demo_entries (bs : List fskit_dirent) (p : Ptr) : fskit_entry :=
  if p = 9 then
    demo_entry 9 FSKIT_ENTRY_TYPE_DIR "/" [demo_slot "." 9, demo_slot ".." 9, demo_slot "a" 0]
  else if p = 0 then
    demo_entry 0 FSKIT_ENTRY_TYPE_DIR "a" [demo_slot "." 0, demo_slot ".." 9, demo_slot "b" 1]
  else if p = 1 then demo_entry 1 FSKIT_ENTRY_TYPE_DIR "b" bs
  else if p = 2 then demo_entry 2 FSKIT_ENTRY_TYPE_FILE "c" []
  else if p = 3 then demo_entry 3 FSKIT_ENTRY_TYPE_FILE "d" []
  else if p = 4 then demo_entry 4 FSKIT_ENTRY_TYPE_FILE "e" []
  else if p = 5 then
    { demo_entry 5 FSKIT_ENTRY_TYPE_FILE "f" [] with deletion_in_progress := true }
  else demo_entry p FSKIT_ENTRY_TYPE_DEAD "g" []

/-- The memory of the examples: handle 7 is open on `/a/b`, handle 8 has lost
its entry; no lock is held. -/
def demo_state (bs : List fskit_dirent) : fskit_state where
  entries := demo_entries bs
  handles := fun h =>
    if h = 7 then { dent := some 1, path := some "/a/b", file_id := 1, app_data := 0 }
    else { dent := none, path := none, file_id := 0, app_data := 0 }
  held := []
  freed := []

/-- The child index `.`, `..`, `c`. -/
def demo_children3 : List fskit_dirent :=
  [demo_slot "." 1, demo_slot ".." 0, demo_slot "c" 2]

/-- The child index `.`, `..`, `c`, `d`, `e`. -/
def demo_children5 : List fskit_dirent :=
  [demo_slot "." 1, demo_slot ".." 0, demo_slot "c" 2, demo_slot "d" 3, demo_slot "e" 4]

/-- A child index with a tombstone, a child in deletion and a dead child. -/
def demo_children_gone : List fskit_dirent :=
  [demo_slot "." 1, demo_slot ".." 0, { name := "t", name_hash := demo_hash "t", child := none },
   demo_slot "f" 5, demo_slot "g" 6, demo_slot "c" 2]

/-- The child index `.`, `..` of an empty directory. -/
def demo_children2 : List fskit_dirent :=
  [demo_slot "." 1, demo_slot ".." 0]

/-- The memory of the examples after `/a/b` was removed from its parent while
handle 7 is still open on it: link-count 0, open-count 1, no name. -/
def demo_state_unlinked : fskit_state :=
  { demo_state demo_children2 with
    entries := fun p =>
      if p = 1 then
        { demo_entries demo_children2 1 with link_count := 0, open_count := 1, name := none }
      else demo_entries demo_children2 p }

/-- The list readdir returns for the child index `demo_children_gone` read from
offset 0 with count 10. -/
def demo_list_gone : List (Option fskit_dir_entry) :=
  [some { type := FSKIT_ENTRY_TYPE_DIR, file_id := 1, name := "." },
   some { type := FSKIT_ENTRY_TYPE_DIR, file_id := 0, name := ".." },
   some { type := FSKIT_ENTRY_TYPE_FILE, file_id := 2, name := "c" },
   none, none, none, none]

/-! ## Extended attributes

None of the xattr functions is among the sources (only the test
`test/test-xattr.cpp` and the header `include/fskit/removexattr.h` are); they
are modelled from the specification. -/

/-- The code `exists` of section 6 of the specification. -/
def EEXIST : Int := 17

/-- The flag `XATTR_CREATE` of the system header `attr/xattr.h`. -/
def XATTR_CREATE : Nat := 1

/-- The flag `XATTR_REPLACE` of the system header `attr/xattr.h`. -/
def XATTR_REPLACE : Nat := 2

/-- Modelled from the spec: the xattr table of an entry, an "ordered mapping
from attribute name to byte value" (the xattr store is not among the sources);
kept ordered by name. -/
abbrev xattr_table := List (String × List Nat)

/-- Modelled from the spec: the value stored under a name in an xattr table. -/
def xattr_find : xattr_table → String → Option (List Nat)
  | [], _ => none
  | (k, v) :: rest, name => if k = name then some v else xattr_find rest name

/-- Modelled from the spec: store a value under a name in an xattr table,
replacing the value the name had or adding the name at its place in the
order. -/
def xattr_insert : xattr_table → String → List Nat → xattr_table
  | [], name, value => [(name, value)]
  | (k, v) :: rest, name, value =>
    if name = k then (name, value) :: rest
    else if name < k then (name, value) :: (k, v) :: rest
    else (k, v) :: xattr_insert rest name value

/-- Modelled from the spec: drop a name from an xattr table. -/
def xattr_erase (t : xattr_table) (name : String) : xattr_table :=
  t.filter (fun kv => !decide (kv.1 = name))

/-- The memory together with the xattr table of each entry (the table is an
attribute of the entry; it is kept beside the entries, by address). -/
structure fskit_xattr_state where
  st : fskit_state
  xattrs : Ptr → xattr_table

/-- Replace the xattr table of one entry. -/
def set_xattrs (s : fskit_xattr_state) (st : fskit_state) (fent : Ptr) (t : xattr_table) :
    fskit_xattr_state :=
  { st := st, xattrs := fun p => if p = fent then t else s.xattrs p }

/-- Modelled from the spec: `fskit_setxattr` is not among the sources.  "Resolve
entry (... write-lock for set/remove).  setxattr honors creation flags: create
fails exists if the key is present; replace fails not-found if absent; no-flag
upserts."  No hook is registered. -/
def fskit_setxattr (env : Env) (s : fskit_xattr_state) (path : String) (user group : Nat)
    (name : String) (value : List Nat) (flags : Nat) : Int × fskit_xattr_state :=
  match fskit_entry_resolve_path env s.st path user group true 0 with
  | (none, err, st1) => (err, { s with st := st1 })
  | (some fent, _, st1) =>
    if flags = XATTR_CREATE ∧ (xattr_find (s.xattrs fent) name).isSome then
      (-EEXIST, { s with st := fskit_entry_unlock st1 fent })
    else if flags = XATTR_REPLACE ∧ (xattr_find (s.xattrs fent) name).isNone then
      (-ENOENT, { s with st := fskit_entry_unlock st1 fent })
    else
      (0, set_xattrs s (fskit_entry_unlock st1 fent) fent
        (xattr_insert (s.xattrs fent) name value))

/-- Modelled from the spec: `fskit_getxattr` is not among the sources.  "Resolve
entry (read-lock for get/list ...)"; the value stored under the name, with its
length as the result, or not-found.  The spec gives no rule for the size of
the buffer of the caller, so none is modelled. -/
def fskit_getxattr (env : Env) (s : fskit_xattr_state) (path : String) (user group : Nat)
    (name : String) : Int × Option (List Nat) × fskit_xattr_state :=
  match fskit_entry_resolve_path env s.st path user group false 0 with
  | (none, err, st1) => (err, none, { s with st := st1 })
  | (some fent, _, st1) =>
    match xattr_find (s.xattrs fent) name with
    | none => (-ENOENT, none, { s with st := fskit_entry_unlock st1 fent })
    | some v => (v.length, some v, { s with st := fskit_entry_unlock st1 fent })

/-- Modelled from the spec: `fskit_removexattr` is declared in
`include/fskit/removexattr.h` and defined nowhere among the sources.  "Resolve
entry (... write-lock for set/remove)"; the name is dropped from the table and
0 returned, or not-found when the name is absent.  No hook is registered. -/
def fskit_removexattr (env : Env) (s : fskit_xattr_state) (path : String) (user group : Nat)
    (name : String) : Int × fskit_xattr_state :=
  match fskit_entry_resolve_path env s.st path user group true 0 with
  | (none, err, st1) => (err, { s with st := st1 })
  | (some fent, _, st1) =>
    match xattr_find (s.xattrs fent) name with
    | none => (-ENOENT, { s with st := fskit_entry_unlock st1 fent })
    | some _ =>
      (0, set_xattrs s (fskit_entry_unlock st1 fent) fent (xattr_erase (s.xattrs fent) name))

/-- The calls "getxattr(p, k); removexattr(p, k); getxattr(p, k)" run in this
order from one memory: the code and value of the first getxattr, the code of
removexattr, the code of the last getxattr. -/
def xattr_get_remove_get (env : Env) (s : fskit_xattr_state) (path : String) (user group : Nat)
    (name : String) : (Int × Option (List Nat)) × Int × Int :=
  let r2 := fskit_getxattr env s path user group name
  let r3 := fskit_removexattr env r2.2.2 path user group name
  let r4 := fskit_getxattr env r3.2 path user group name
  ((r2.1, r2.2.1), r3.1, r4.1)

/-- The calls of the law "setxattr(p, k, v); getxattr(p, k) == v;
removexattr(p, k); getxattr(p, k) == not-found", run in this order from one
memory, setxattr with `XATTR_CREATE`: the code of setxattr, then the results
of the three calls that follow. -/
def xattr_round_trip (env : Env) (s : fskit_xattr_state) (path : String) (user group : Nat)
    (name : String) (value : List Nat) : Int × (Int × Option (List Nat)) × Int × Int :=
  let r1 := fskit_setxattr env s path user group name value XATTR_CREATE
  (r1.1, xattr_get_remove_get env r1.2 path user group name)

/-- The loop of `main` in `test/test-xattr.cpp` that sets the attributes one
after another with `XATTR_CREATE`, for any names and values; the result codes
are collected. -/
def set_xattrs_in_turn (env : Env) (path : String) (user group : Nat) :
    List (String × List Nat) → fskit_xattr_state → List Int × fskit_xattr_state
  | [], s => ([], s)
  | (name, value) :: rest, s =>
    let r := fskit_setxattr env s path user group name value XATTR_CREATE
    let rs := set_xattrs_in_turn env path user group rest r.2
    (r.1 :: rs.1, rs.2)

/-- The loop of `main` in `test/test-xattr.cpp` that removes the attributes one
after another; the result codes are collected. -/
def remove_xattrs_in_turn (env : Env) (path : String) (user group : Nat) :
    List String → fskit_xattr_state → List Int × fskit_xattr_state
  | [], s => ([], s)
  | name :: rest, s =>
    let r := fskit_removexattr env s path user group name
    let rs := remove_xattrs_in_turn env path user group rest r.2
    (r.1 :: rs.1, rs.2)

/-- The memory of the examples with empty xattr tables. -/
def demo_xattr_state : fskit_xattr_state :=
  { st := demo_state demo_children3, xattrs := fun _ => [] }

/-- Two attributes for the examples, named as in `test/test-xattr.cpp`. -/
def demo_xattrs : List (String × List Nat) :=
  [("attr-name-0", [118, 48]), ("attr-name-1", [118, 49])]

/-! ## Lemmas on the readdir loop -/

theorem release_entries (st : fskit_state) (t : LockTarget) : (release st t).entries = st.entries := rfl
theorem acquire_entries (st : fskit_state) (t : LockTarget) (m : LockMode) :
    (acquire st t m).entries = st.entries := rfl

theorem store_dir_ent_st (s : scan_state) (st : fskit_state) (d : Option fskit_dir_entry) :
    (store_dir_ent s st d).st = st := by
  cases d <;> rfl

theorem store_dir_ent_dir_ents (s : scan_state) (st : fskit_state) (d : Option fskit_dir_entry) :
    (store_dir_ent s st d).dir_ents =
      (match d with | some x => s.dir_ents.set s.next (some x) | none => s.dir_ents) := by
  cases d <;> rfl

theorem store_dir_ent_next (s : scan_state) (st : fskit_state) (d : Option fskit_dir_entry) :
    (store_dir_ent s st d).next = (match d with | some _ => s.next + 1 | none => s.next) := by
  cases d <;> rfl

theorem readdir_lowlevel_body_ok (env : Env) (dent : Ptr) (i : Nat) (s s1 : scan_state)
    (h : readdir_lowlevel_body env dent i s = .ok s1) :
    s1.st.entries = s.st.entries ∧ s1.st.handles = s.st.handles ∧ s1.st.freed = s.st.freed ∧
    s1.dir_ents = (match scan_at env s.st.entries dent i with
      | some x => s.dir_ents.set s.next (some x) | none => s.dir_ents) ∧
    s1.next = (match scan_at env s.st.entries dent i with
      | some _ => s.next + 1 | none => s.next) := by
  unfold readdir_lowlevel_body at h
  unfold scan_at
  cases hc : fskit_entry_set_child_at (s.st.entries dent).children i with
  | none =>
    simp only [hc] at h ⊢
    cases h
    simp
  | some fent =>
    simp only [hc] at h ⊢
    by_cases h1 : fskit_entry_set_name_hash_at (s.st.entries dent).children i
        = env.fskit_entry_name_hash "."
    · simp only [h1, if_true] at h ⊢
      cases h
      simp [store_dir_ent_st, store_dir_ent_dir_ents, store_dir_ent_next]
    · simp only [h1, if_false] at h ⊢
      by_cases h2 : fskit_entry_set_name_hash_at (s.st.entries dent).children i
          = env.fskit_entry_name_hash ".."
      · simp only [h2, if_true] at h ⊢
        by_cases h3 : dent = fent
        · simp only [h3, ne_eq, not_true_eq_false, if_false] at h ⊢
          cases h
          simp [store_dir_ent_st, store_dir_ent_dir_ents, store_dir_ent_next]
        · simp only [ne_eq, h3, not_false_eq_true, if_true, fskit_entry_rlock] at h
          by_cases h4 : env.entry_lock_rc fent = 0
          · simp only [h4, if_true, not_true_eq_false, if_false] at h
            cases h
            simp [store_dir_ent_st, store_dir_ent_dir_ents, store_dir_ent_next, fskit_entry_unlock, release, acquire]
          · simp [h4] at h
      · simp only [h2, if_false, fskit_entry_rlock] at h ⊢
        by_cases h4 : env.entry_lock_rc fent = 0
        · simp only [h4, if_true, ne_eq, not_true_eq_false, if_false, acquire] at h
          split at h
          · rename_i hdel
            cases h
            simp [hdel]
          · rename_i hdel
            cases h
            simp [store_dir_ent_st, store_dir_ent_dir_ents, store_dir_ent_next, hdel, fskit_entry_unlock, release]
        · simp [h4] at h


theorem dir_entry_list_filled (xs : List fskit_dir_entry) (m : Nat) :
    dir_entry_list (xs.map some ++ List.replicate m none) = xs := by
  induction xs with
  | nil => cases m <;> simp [dir_entry_list, List.replicate]
  | cons x xs ih => simp [dir_entry_list, ih]

theorem set_filled (xs : List fskit_dir_entry) (m : Nat) (d : fskit_dir_entry) :
    (xs.map some ++ List.replicate (m + 1) none).set xs.length (some d)
      = (xs ++ [d]).map some ++ List.replicate m none := by
  induction xs with
  | nil => simp [List.replicate]
  | cons x xs ih => simpa using ih

theorem readdir_lowlevel_loop_ok (env : Env) (dent : Ptr) :
    ∀ (k i : Nat) (s s1 : scan_state) (xs : List fskit_dir_entry) (m : Nat),
      s.dir_ents = xs.map some ++ List.replicate m none → s.next = xs.length → k ≤ m →
      readdir_lowlevel_loop env dent k i s = .ok s1 →
      s1.st.entries = s.st.entries ∧ s1.st.handles = s.st.handles ∧ s1.st.freed = s.st.freed ∧
      (List.filterMap (scan_at env s.st.entries dent) (List.range' i k)).length ≤ k ∧
      s1.dir_ents = (xs ++ List.filterMap (scan_at env s.st.entries dent) (List.range' i k)).map some
        ++ List.replicate
          (m - (List.filterMap (scan_at env s.st.entries dent) (List.range' i k)).length) none ∧
      s1.next = (xs ++ List.filterMap (scan_at env s.st.entries dent) (List.range' i k)).length := by
  intro k
  induction k with
  | zero =>
    intro i s s1 xs m h1 h2 _ h
    simp only [readdir_lowlevel_loop] at h
    cases h
    simp [h1, h2]
  | succ k ih =>
    intro i s s1 xs m h1 h2 hk h
    simp only [readdir_lowlevel_loop] at h
    cases hb : readdir_lowlevel_body env dent i s with
    | error e => simp [hb] at h
    | ok s2 =>
      simp only [hb] at h
      obtain ⟨e1, e2, e3, e4, e5⟩ := readdir_lowlevel_body_ok env dent i s s2 hb
      obtain ⟨m1, rfl⟩ : ∃ m1, m = m1 + 1 := ⟨m - 1, by omega⟩
      cases hs : scan_at env s.st.entries dent i with
      | none =>
        simp only [hs] at e4 e5
        obtain ⟨r1, r2, r3, r4, r5, r6⟩ :=
          ih (i + 1) s2 s1 xs (m1 + 1) (e4.trans h1) (e5.trans h2) (by omega) h
        rw [e1] at r4 r5 r6
        simp only [List.range'_succ, List.filterMap_cons, hs]
        exact ⟨r1.trans e1, r2.trans e2, r3.trans e3, by omega, r5, r6⟩
      | some d =>
        simp only [hs] at e4 e5
        have a1 : s2.dir_ents = (xs ++ [d]).map some ++ List.replicate m1 none := by
          rw [e4, h1, h2]; exact set_filled xs m1 d
        have a2 : s2.next = (xs ++ [d]).length := by
          rw [e5, h2]; simp
        obtain ⟨r1, r2, r3, r4, r5, r6⟩ :=
          ih (i + 1) s2 s1 (xs ++ [d]) m1 a1 a2 (by omega) h
        rw [e1] at r4 r5 r6
        simp only [List.range'_succ, List.filterMap_cons, hs]
        refine ⟨r1.trans e1, r2.trans e2, r3.trans e3, ?_, ?_, ?_⟩
        · simp only [List.length_cons]; omega
        · rw [r5]
          simp only [List.append_assoc, List.singleton_append, List.length_cons]
          congr 2
          omega
        · rw [r6]; simp


theorem fskit_readdir_lowlevel_some (env : Env) (st : fskit_state) (dent : Ptr)
    (o c nr : Nat) (err : Int) (arr : List (Option fskit_dir_entry))
    (h : (fskit_readdir_lowlevel env st dent o c nr err).dents = some arr) :
    ((st.entries dent).children.length ≤ o ∧ arr = [none] ∧
      (fskit_readdir_lowlevel env st dent o c nr err).num_read = nr ∧
      (fskit_readdir_lowlevel env st dent o c nr err).err = err ∧
      (fskit_readdir_lowlevel env st dent o c nr err).st = st) ∨
    (o < (st.entries dent).children.length ∧
      arr = (List.filterMap (scan_at env st.entries dent)
          (scan_window (st.entries dent).children.length o c)).map some
        ++ List.replicate (min ((st.entries dent).children.length - o) c + 1
          - (List.filterMap (scan_at env st.entries dent)
              (scan_window (st.entries dent).children.length o c)).length) none ∧
      (fskit_readdir_lowlevel env st dent o c nr err).num_read
        = (List.filterMap (scan_at env st.entries dent)
            (scan_window (st.entries dent).children.length o c)).length ∧
      (List.filterMap (scan_at env st.entries dent)
            (scan_window (st.entries dent).children.length o c)).length
        ≤ min ((st.entries dent).children.length - o) c ∧
      (fskit_readdir_lowlevel env st dent o c nr err).err = err ∧
      (fskit_readdir_lowlevel env st dent o c nr err).st.entries = st.entries) := by
  unfold fskit_readdir_lowlevel at h ⊢
  by_cases hn : (st.entries dent).children.length ≤ o
  · left
    simp only [hn, if_true, CALLOC_LIST] at h ⊢
    split at h
    · simp only [Option.some.injEq] at h
      exact ⟨by simp, by rw [← h]; rfl, by simp, by simp, by simp⟩
    · simp at h
  · right
    simp only [hn, if_false] at h ⊢
    refine ⟨by omega, ?_⟩
    cases hc : CALLOC_LIST env (min ((st.entries dent).children.length - o) c + 1) with
    | none => simp [hc] at h
    | some dir_ents =>
      simp only [hc] at h ⊢
      have hd : dir_ents = List.replicate
          (min ((st.entries dent).children.length - o) c + 1) none := by
        unfold CALLOC_LIST at hc
        split at hc
        · simpa using hc.symm
        · simp at hc
      cases hl : readdir_lowlevel_loop env dent
          (min ((st.entries dent).children.length - o) c - o) o
          { dir_ents := dir_ents, next := 0, st := st } with
      | error e => simp [hl] at h
      | ok s1 =>
        simp only [hl] at h ⊢
        simp only [Option.some.injEq] at h
        obtain ⟨r1, _, _, r4, r5, r6⟩ := readdir_lowlevel_loop_ok env dent _ o _ s1 []
          (min ((st.entries dent).children.length - o) c + 1)
          (by simpa using hd) rfl (by omega) hl
        simp only [List.nil_append] at r5 r6
        have r4a : (List.filterMap (scan_at env st.entries dent)
            (List.range' o (min ((st.entries dent).children.length - o) c - o))).length
            ≤ min ((st.entries dent).children.length - o) c - o := r4
        refine ⟨?_, r6, ?_, by simp, r1⟩
        · rw [← h, r5]; rfl
        · unfold scan_window; omega


theorem scan_at_slot (env : Env) (entries : Ptr → fskit_entry) (dent : Ptr) (i : Nat) :
    scan_at env entries dent i =
      (match (entries dent).children[i]? with
      | none => none
      | some d =>
        match d.child with
        | none => none
        | some fent =>
          if d.name_hash = env.fskit_entry_name_hash "." then
            fskit_make_dir_entry env (entries dent) "."
          else if d.name_hash = env.fskit_entry_name_hash ".." then
            fskit_make_dir_entry env (entries fent) ".."
          else if (entries fent).deletion_in_progress
              || decide ((entries fent).type = FSKIT_ENTRY_TYPE_DEAD)
              || (entries fent).name.isNone then none
          else fskit_make_dir_entry env (entries fent) ((entries fent).name.getD "")) := by
  unfold scan_at fskit_entry_set_child_at fskit_entry_set_name_hash_at
  rcases hd : (entries dent).children[i]? with _ | d
  · simp [hd]
  · rcases hc : d.child with _ | fent
    · simp [hd, hc]
    · simp [hd, hc]

theorem scan_at_alloc (env : Env) (entries : Ptr → fskit_entry) (dent : Ptr) (i : Nat)
    (ha : ∀ nm, env.dir_entry_alloc_ok nm = true) :
    scan_at env entries dent i =
      (if spec_skipped env entries dent i then none else spec_snapshot env entries dent i) := by
  rw [scan_at_slot]
  unfold spec_skipped spec_snapshot
  rcases hd : (entries dent).children[i]? with _ | d
  · simp
  · rcases hc : d.child with _ | fent
    · simp [hc]
    · simp only [hc, fskit_make_dir_entry, ha, if_true]
      by_cases h1 : d.name_hash = env.fskit_entry_name_hash "."
      · simp [h1]
      · by_cases h2 : d.name_hash = env.fskit_entry_name_hash ".."
        · simp [h1, h2]
        · rcases hn : (entries fent).name with _ | nm
          · simp [h1, h2]
          · by_cases h3 : (entries fent).deletion_in_progress = true
            · simp [h1, h2, h3]
            · by_cases h4 : (entries fent).type = FSKIT_ENTRY_TYPE_DEAD
              · simp [h1, h2, h3, h4]
              · simp [h1, h2, h3, h4]

theorem fskit_make_dir_entry_some (env : Env) (e : fskit_entry) (nm : String)
    (x : fskit_dir_entry) (h : fskit_make_dir_entry env e nm = some x) :
    x = { type := e.type, file_id := e.file_id, name := nm } := by
  unfold fskit_make_dir_entry at h
  split at h
  · exact (Option.some.inj h).symm
  · simp at h

theorem scan_at_some (env : Env) (entries : Ptr → fskit_entry) (dent : Ptr) (i : Nat)
    (x : fskit_dir_entry) (h : scan_at env entries dent i = some x) :
    spec_skipped env entries dent i = false ∧ spec_snapshot env entries dent i = some x := by
  rw [scan_at_slot] at h
  unfold spec_skipped spec_snapshot
  rcases hd : (entries dent).children[i]? with _ | d
  · simp [hd] at h
  · rcases hc : d.child with _ | fent
    · simp [hd, hc] at h
    · simp only [hd, hc] at h ⊢
      by_cases h1 : d.name_hash = env.fskit_entry_name_hash "."
      · rw [if_pos h1] at h
        rw [if_pos h1, fskit_make_dir_entry_some env _ _ x h]
        simp [h1]
      · rw [if_neg h1] at h
        rw [if_neg h1]
        by_cases h2 : d.name_hash = env.fskit_entry_name_hash ".."
        · rw [if_pos h2] at h
          rw [if_pos h2, fskit_make_dir_entry_some env _ _ x h]
          simp [h2]
        · rw [if_neg h2] at h
          rw [if_neg h2]
          split at h
          · simp at h
          · rename_i hlive
            rw [fskit_make_dir_entry_some env _ _ x h]
            rcases hn : (entries fent).name with _ | nm
            · simp [hn] at hlive
            · simp only [hn, Bool.or_eq_true, not_or] at hlive
              simp [h1, h2, hn, hlive.1.1, hlive.1.2]

theorem fskit_readdir_some (env : Env) (st : fskit_state) (dirh : Ptr) (o c nr : Nat) (err : Int)
    (arr : List (Option fskit_dir_entry))
    (h : (fskit_readdir env st dirh o c nr err).dents = some arr) :
    ∃ dent, (st.handles dirh).dent = some dent ∧ env.handle_lock_rc dirh = 0 ∧
      env.entry_lock_rc dent = 0 ∧
      (fskit_readdir_lowlevel env
        (acquire (acquire st (.handle dirh) .rd) (.entry dent) .rd) dent o c nr err).dents
          = some arr ∧
      (fskit_readdir env st dirh o c nr err).num_read = (fskit_readdir_lowlevel env
        (acquire (acquire st (.handle dirh) .rd) (.entry dent) .rd) dent o c nr err).num_read ∧
      (fskit_readdir env st dirh o c nr err).err = (fskit_readdir_lowlevel env
        (acquire (acquire st (.handle dirh) .rd) (.entry dent) .rd) dent o c nr err).err ∧
      (fskit_readdir env st dirh o c nr err).st = fskit_dir_handle_unlock (fskit_entry_unlock
        (fskit_readdir_lowlevel env
          (acquire (acquire st (.handle dirh) .rd) (.entry dent) .rd) dent o c nr err).st
        dent) dirh := by
  unfold fskit_readdir fskit_dir_handle_rlock at h ⊢
  by_cases hh : env.handle_lock_rc dirh = 0
  · simp only [hh, if_true, ne_eq, not_true_eq_false, if_false] at h ⊢
    cases hd : (st.handles dirh).dent with
    | none =>
      have : (acquire st (LockTarget.handle dirh) LockMode.rd).handles dirh = st.handles dirh := rfl
      simp [this, hd] at h
    | some dent =>
      have e : (acquire st (LockTarget.handle dirh) LockMode.rd).handles dirh = st.handles dirh := rfl
      simp only [e, hd, fskit_entry_rlock] at h ⊢
      by_cases he : env.entry_lock_rc dent = 0
      · simp only [he, if_true, not_true_eq_false, if_false] at h ⊢
        exact ⟨dent, rfl, trivial, he, h, rfl, rfl, rfl⟩
      · simp [he] at h
  · simp [hh] at h

theorem readdir_lowlevel_body_total (env : Env) (dent : Ptr) (i : Nat) (s : scan_state)
    (hl : ∀ p, env.entry_lock_rc p = 0) :
    ∃ s1, readdir_lowlevel_body env dent i s = .ok s1 := by
  unfold readdir_lowlevel_body
  simp only [fskit_entry_rlock, hl, if_true, ne_eq, not_true_eq_false, if_false]
  split
  · exact ⟨_, rfl⟩
  · split
    · exact ⟨_, rfl⟩
    · split
      · split
        · exact ⟨_, rfl⟩
        · exact ⟨_, rfl⟩
      · split
        · exact ⟨_, rfl⟩
        · exact ⟨_, rfl⟩

theorem readdir_lowlevel_loop_total (env : Env) (dent : Ptr) (hl : ∀ p, env.entry_lock_rc p = 0) :
    ∀ (k i : Nat) (s : scan_state), ∃ s1, readdir_lowlevel_loop env dent k i s = .ok s1 := by
  intro k
  induction k with
  | zero => intro i s; exact ⟨s, rfl⟩
  | succ k ih =>
    intro i s
    obtain ⟨s2, h2⟩ := readdir_lowlevel_body_total env dent i s hl
    obtain ⟨s1, h1⟩ := ih (i + 1) s2
    exact ⟨s1, by simp only [readdir_lowlevel_loop, h2, h1]⟩

theorem fskit_readdir_lowlevel_total (env : Env) (st : fskit_state) (dent : Ptr)
    (o c nr : Nat) (err : Int) (hl : ∀ p, env.entry_lock_rc p = 0)
    (hm : ∀ n, env.calloc_list_ok n = true) :
    ∃ arr, (fskit_readdir_lowlevel env st dent o c nr err).dents = some arr := by
  unfold fskit_readdir_lowlevel
  simp only [CALLOC_LIST, hm, if_true]
  split
  · exact ⟨_, rfl⟩
  · obtain ⟨s1, h1⟩ := readdir_lowlevel_loop_total env dent hl
      (min ((st.entries dent).children.length - o) c - o) o
      { dir_ents := List.replicate (min ((st.entries dent).children.length - o) c + 1) none,
        next := 0, st := st }
    simp only [h1]
    exact ⟨_, rfl⟩

theorem fskit_readdir_total (env : Env) (st : fskit_state) (dirh dent : Ptr)
    (o c nr : Nat) (err : Int) (hd : (st.handles dirh).dent = some dent)
    (hh : env.handle_lock_rc dirh = 0) (hl : ∀ p, env.entry_lock_rc p = 0)
    (hm : ∀ n, env.calloc_list_ok n = true) :
    ∃ arr, (fskit_readdir env st dirh o c nr err).dents = some arr := by
  obtain ⟨arr, h⟩ := fskit_readdir_lowlevel_total env
    (acquire (acquire st (.handle dirh) .rd) (.entry dent) .rd) dent o c nr err hl hm
  refine ⟨arr, ?_⟩
  unfold fskit_readdir fskit_dir_handle_rlock fskit_entry_rlock
  have e : (acquire st (LockTarget.handle dirh) LockMode.rd).handles dirh = st.handles dirh := rfl
  simp only [hh, if_true, ne_eq, not_true_eq_false, if_false, e, hd, hl]
  exact h

theorem release_acquire (st : fskit_state) (t : LockTarget) (m : LockMode) :
    release (acquire st t m) t = st := by
  cases st
  simp [release, acquire]

/-- The list a successful readdir returns, read up to its NULL slot, holds what
the scan finds at the positions of the window, in order. -/
theorem fskit_readdir_list (env : Env) (st : fskit_state) (dirh : Ptr) (o c nr : Nat) (err : Int)
    (arr : List (Option fskit_dir_entry))
    (h : (fskit_readdir env st dirh o c nr err).dents = some arr) :
    ∃ dent, (st.handles dirh).dent = some dent ∧
      dir_entry_list arr = List.filterMap (scan_at env st.entries dent)
        (scan_window (st.entries dent).children.length o c) ∧
      (o < (st.entries dent).children.length →
        (fskit_readdir env st dirh o c nr err).num_read = (dir_entry_list arr).length) ∧
      (fskit_readdir env st dirh o c nr err).err = err := by
  obtain ⟨dent, hd, -, -, hl, hn, he, -⟩ := fskit_readdir_some env st dirh o c nr err arr h
  refine ⟨dent, hd, ?_⟩
  rcases fskit_readdir_lowlevel_some env _ dent o c nr err arr hl with
    ⟨h1, h2, -, h4, -⟩ | ⟨h1, h2, h3, -, h5, -⟩
  · have e : (acquire (acquire st (LockTarget.handle dirh) LockMode.rd)
        (LockTarget.entry dent) LockMode.rd).entries = st.entries := rfl
    rw [e] at h1
    have hw : scan_window (st.entries dent).children.length o c = [] := by
      unfold scan_window
      have : min ((st.entries dent).children.length - o) c - o = 0 := by omega
      rw [this]; rfl
    refine ⟨?_, ?_, ?_⟩
    · rw [hw, h2]; rfl
    · intro hlt; omega
    · rw [he, h4]
  · have e : (acquire (acquire st (LockTarget.handle dirh) LockMode.rd)
        (LockTarget.entry dent) LockMode.rd).entries = st.entries := rfl
    rw [e] at h2 h3
    refine ⟨?_, ?_, ?_⟩
    · rw [h2, dir_entry_list_filled]
    · intro _
      rw [hn, h3, h2, dir_entry_list_filled]
    · rw [he, h5]

theorem spec_skipped_false_snapshot (env : Env) (entries : Ptr → fskit_entry) (dent : Ptr)
    (i : Nat) (h : spec_skipped env entries dent i = false) :
    ∃ x, spec_snapshot env entries dent i = some x := by
  unfold spec_skipped at h
  unfold spec_snapshot
  rcases hd : (entries dent).children[i]? with _ | d
  · simp [hd] at h
  · rcases hc : d.child with _ | fent
    · simp [hd, hc] at h
    · simp only [hd, hc] at h ⊢
      by_cases h1 : d.name_hash = env.fskit_entry_name_hash "."
      · exact ⟨_, by rw [if_pos h1]⟩
      · by_cases h2 : d.name_hash = env.fskit_entry_name_hash ".."
        · exact ⟨_, by rw [if_neg h1, if_pos h2]⟩
        · rcases hn : (entries fent).name with _ | nm
          · simp [h1, h2, hn] at h
          · exact ⟨_, by rw [if_neg h1, if_neg h2]⟩

/-! ## Lemmas on unlink -/

theorem fskit_entry_set_find_name_some (env : Env) (cs : List fskit_dirent) (nm : String)
    (fent : Ptr) (h : fskit_entry_set_find_name env cs nm = some fent) :
    ∃ d ∈ cs, d.name = nm ∧ d.child = some fent := by
  unfold fskit_entry_set_find_name at h
  rcases hf : cs.find? (fun d => d.child.isSome
      && decide (d.name_hash = env.fskit_entry_name_hash nm) && decide (d.name = nm)) with _ | d
  · simp [hf] at h
  · rw [hf] at h
    have hp := List.find?_some hf
    have hm := List.mem_of_find?_eq_some hf
    simp only [Bool.and_eq_true, decide_eq_true_eq] at hp
    exact ⟨d, hm, hp.2, h⟩

theorem fskit_entry_set_find_name_remove (env : Env) (cs : List fskit_dirent) (nm : String) :
    fskit_entry_set_find_name env (fskit_entry_set_remove cs nm) nm = none := by
  unfold fskit_entry_set_find_name fskit_entry_set_remove
  have : List.find? (fun d => d.child.isSome
      && decide (d.name_hash = env.fskit_entry_name_hash nm) && decide (d.name = nm))
      (List.map (fun d => if d.name = nm then { d with child := none } else d) cs) = none := by
    rw [List.find?_eq_none]
    intro x hx
    rw [List.mem_map] at hx
    obtain ⟨d, -, rfl⟩ := hx
    by_cases hd : d.name = nm
    · simp [hd]
    · simp [hd]
  rw [this]
  rfl

theorem fskit_entry_wlock_entries (env : Env) (st : fskit_state) (p : Ptr) :
    (fskit_entry_wlock env st p).2.entries = st.entries := by
  unfold fskit_entry_wlock
  split <;> rfl

theorem fskit_entry_detach_lowlevel_ok (st : fskit_state) (parent child : Ptr) (nm : String)
    (hname : (st.entries child).name = some nm)
    (hany : (st.entries parent).children.any
      (fun d => decide (d.name = nm) && decide (d.child = some child)) = true)
    (hne : child ≠ parent) :
    (fskit_entry_detach_lowlevel st parent child).1 = 0 ∧
    ((fskit_entry_detach_lowlevel st parent child).2.entries parent).children
      = fskit_entry_set_remove (st.entries parent).children nm ∧
    ((fskit_entry_detach_lowlevel st parent child).2.entries child).link_count
      = (st.entries child).link_count - 1 := by
  have hne2 : parent ≠ child := fun h => hne h.symm
  unfold fskit_entry_detach_lowlevel
  simp only [hname, hany, if_true, set_entry]
  simp [hne, hne2]

theorem fskit_entry_try_destroy_and_free_ok (env : Env) (st : fskit_state) (fent : Ptr)
    (hrc : env.destroy_rc fent = 0) :
    0 ≤ (fskit_entry_try_destroy_and_free env st fent).1 ∧
    ((fskit_entry_try_destroy_and_free env st fent).2.entries fent).link_count
      = (st.entries fent).link_count ∧
    ∀ q, q ≠ fent → (fskit_entry_try_destroy_and_free env st fent).2.entries q = st.entries q := by
  unfold fskit_entry_try_destroy_and_free fskit_entry_try_destroy
  simp only [hrc, lt_self_iff_false, if_false]
  split
  · refine ⟨by simp, ?_, ?_⟩
    · simp [free, fskit_entry_unlock, release, set_entry]
    · intro q hq
      simp [free, fskit_entry_unlock, release, set_entry, hq]
  · refine ⟨by simp, ?_, ?_⟩
    · simp
    · intro q _
      simp

/-! ## Lemmas on extended attributes -/

theorem xattr_find_insert_same (t : xattr_table) (k : String) (v : List Nat) :
    xattr_find (xattr_insert t k v) k = some v := by
  induction t with
  | nil => simp [xattr_insert, xattr_find]
  | cons hd tl ih =>
    obtain ⟨k1, v1⟩ := hd
    unfold xattr_insert
    by_cases h1 : k = k1
    · simp [h1, xattr_find]
    · by_cases h2 : k < k1
      · simp [h1, h2, xattr_find]
      · have h3 : ¬ k1 = k := fun h => h1 h.symm
        simp [h1, h2, xattr_find, h3, ih]

theorem xattr_find_insert_other (t : xattr_table) (k k2 : String) (v : List Nat) (h : k2 ≠ k) :
    xattr_find (xattr_insert t k v) k2 = xattr_find t k2 := by
  have hk : ¬ k = k2 := fun e => h e.symm
  induction t with
  | nil => simp [xattr_insert, xattr_find, hk]
  | cons hd tl ih =>
    obtain ⟨k1, v1⟩ := hd
    unfold xattr_insert
    by_cases h1 : k = k1
    · subst h1
      simp [xattr_find, hk]
    · by_cases h2 : k < k1
      · simp [h1, h2, xattr_find, hk]
      · simp [h1, h2, xattr_find, ih]

theorem xattr_find_erase_same (t : xattr_table) (k : String) :
    xattr_find (xattr_erase t k) k = none := by
  induction t with
  | nil => rfl
  | cons hd tl ih =>
    obtain ⟨k1, v1⟩ := hd
    unfold xattr_erase at ih ⊢
    by_cases h1 : k1 = k
    · simp [List.filter, h1, ih]
    · simp [List.filter, h1, xattr_find, ih]

theorem xattr_find_erase_other (t : xattr_table) (k k2 : String) (h : k2 ≠ k) :
    xattr_find (xattr_erase t k) k2 = xattr_find t k2 := by
  have hk : ¬ k = k2 := fun e => h e.symm
  induction t with
  | nil => rfl
  | cons hd tl ih =>
    obtain ⟨k1, v1⟩ := hd
    unfold xattr_erase at ih ⊢
    by_cases h1 : k1 = k
    · subst h1
      simp [List.filter, xattr_find, ih, hk]
    · have e : List.filter (fun kv => !decide (kv.1 = k)) ((k1, v1) :: tl)
          = (k1, v1) :: List.filter (fun kv => !decide (kv.1 = k)) tl := by
        simp [List.filter, h1]
      rw [e]
      simp [xattr_find, ih]

theorem fskit_setxattr_create (env : Env) (s : fskit_xattr_state) (path : String)
    (user group : Nat) (fent : Ptr) (k : String) (v : List Nat)
    (hw : ∀ es, env.walk es path user group = .ok fent)
    (h : xattr_find (s.xattrs fent) k = none) :
    fskit_setxattr env s path user group k v XATTR_CREATE
      = (0, set_xattrs s s.st fent (xattr_insert (s.xattrs fent) k v)) := by
  unfold fskit_setxattr fskit_entry_resolve_path
  simp [hw, h, fskit_entry_unlock, release_acquire, XATTR_CREATE, XATTR_REPLACE]

theorem fskit_getxattr_eq (env : Env) (s : fskit_xattr_state) (path : String)
    (user group : Nat) (fent : Ptr) (k : String)
    (hw : ∀ es, env.walk es path user group = .ok fent) :
    fskit_getxattr env s path user group k =
      (match xattr_find (s.xattrs fent) k with
      | none => (-ENOENT, none, s)
      | some v => ((v.length : Int), some v, s)) := by
  unfold fskit_getxattr fskit_entry_resolve_path
  simp only [hw, fskit_entry_unlock, release_acquire]

theorem fskit_removexattr_some (env : Env) (s : fskit_xattr_state) (path : String)
    (user group : Nat) (fent : Ptr) (k : String) (v : List Nat)
    (hw : ∀ es, env.walk es path user group = .ok fent)
    (h : xattr_find (s.xattrs fent) k = some v) :
    fskit_removexattr env s path user group k
      = (0, set_xattrs s s.st fent (xattr_erase (s.xattrs fent) k)) := by
  unfold fskit_removexattr fskit_entry_resolve_path
  simp [hw, h, fskit_entry_unlock, release_acquire]

theorem set_xattrs_table (s : fskit_xattr_state) (st : fskit_state) (fent : Ptr)
    (t : xattr_table) : (set_xattrs s st fent t).xattrs fent = t := by
  simp [set_xattrs]

theorem xattr_get_remove_get_some (env : Env) (s : fskit_xattr_state) (path : String)
    (user group : Nat) (fent : Ptr) (k : String) (v : List Nat)
    (hw : ∀ es, env.walk es path user group = .ok fent)
    (h : xattr_find (s.xattrs fent) k = some v) :
    xattr_get_remove_get env s path user group k = (((v.length : Int), some v), 0, -ENOENT) := by
  unfold xattr_get_remove_get
  have hg := fskit_getxattr_eq env s path user group fent k hw
  rw [h] at hg
  simp only [hg]
  rw [fskit_removexattr_some env s path user group fent k v hw h]
  simp only [fskit_getxattr_eq env _ path user group fent k hw, set_xattrs_table,
    xattr_find_erase_same]

theorem set_xattrs_in_turn_spec (env : Env) (path : String) (user group : Nat) (fent : Ptr)
    (hw : ∀ es, env.walk es path user group = .ok fent) :
    ∀ (kvs : List (String × List Nat)) (s : fskit_xattr_state),
      (kvs.map Prod.fst).Nodup →
      (∀ kv ∈ kvs, xattr_find (s.xattrs fent) kv.1 = none) →
      (set_xattrs_in_turn env path user group kvs s).1 = List.replicate kvs.length 0 ∧
      (∀ kv ∈ kvs,
        xattr_find ((set_xattrs_in_turn env path user group kvs s).2.xattrs fent) kv.1
          = some kv.2) ∧
      (∀ k, k ∉ kvs.map Prod.fst →
        xattr_find ((set_xattrs_in_turn env path user group kvs s).2.xattrs fent) k
          = xattr_find (s.xattrs fent) k) := by
  intro kvs
  induction kvs with
  | nil => intro s _ _; simp [set_xattrs_in_turn]
  | cons hd tl ih =>
    intro s hd1 ha
    obtain ⟨k, v⟩ := hd
    simp only [List.map_cons, List.nodup_cons] at hd1
    obtain ⟨hk, hnd⟩ := hd1
    have hk0 : xattr_find (s.xattrs fent) k = none := ha (k, v) (List.mem_cons_self _ _)
    have hset := fskit_setxattr_create env s path user group fent k v hw hk0
    have hne : ∀ kv ∈ tl, kv.1 ≠ k := by
      intro kv hkv e
      exact hk (e ▸ List.mem_map_of_mem Prod.fst hkv)
    obtain ⟨i1, i2, i3⟩ := ih (set_xattrs s s.st fent (xattr_insert (s.xattrs fent) k v)) hnd
      (by
        intro kv hkv
        rw [set_xattrs_table, xattr_find_insert_other _ _ _ _ (hne kv hkv)]
        exact ha kv (List.mem_cons_of_mem _ hkv))
    simp only [set_xattrs_in_turn, hset]
    refine ⟨?_, ?_, ?_⟩
    · rw [i1]; rfl
    · intro kv hkv
      rcases List.mem_cons.mp hkv with e | hin
      · subst e
        rw [i3 k hk, set_xattrs_table, xattr_find_insert_same]
      · exact i2 kv hin
    · intro k2 hk2
      simp only [List.map_cons, List.mem_cons, not_or] at hk2
      rw [i3 k2 hk2.2, set_xattrs_table, xattr_find_insert_other _ _ _ _ hk2.1]

theorem remove_xattrs_in_turn_spec (env : Env) (path : String) (user group : Nat) (fent : Ptr)
    (hw : ∀ es, env.walk es path user group = .ok fent) :
    ∀ (names : List String) (s : fskit_xattr_state),
      names.Nodup →
      (∀ k ∈ names, ∃ v, xattr_find (s.xattrs fent) k = some v) →
      (remove_xattrs_in_turn env path user group names s).1 = List.replicate names.length 0 ∧
      (∀ k ∈ names,
        xattr_find ((remove_xattrs_in_turn env path user group names s).2.xattrs fent) k
          = none) ∧
      (∀ k, k ∉ names →
        xattr_find ((remove_xattrs_in_turn env path user group names s).2.xattrs fent) k
          = xattr_find (s.xattrs fent) k) := by
  intro names
  induction names with
  | nil => intro s _ _; simp [remove_xattrs_in_turn]
  | cons k tl ih =>
    intro s hd1 ha
    simp only [List.nodup_cons] at hd1
    obtain ⟨hk, hnd⟩ := hd1
    obtain ⟨v, hv⟩ := ha k (List.mem_cons_self _ _)
    have hrem := fskit_removexattr_some env s path user group fent k v hw hv
    have hne : ∀ k2 ∈ tl, k2 ≠ k := by
      intro k2 hk2 e
      exact hk (e ▸ hk2)
    obtain ⟨i1, i2, i3⟩ := ih (set_xattrs s s.st fent (xattr_erase (s.xattrs fent) k)) hnd
      (by
        intro k2 hk2
        rw [set_xattrs_table, xattr_find_erase_other _ _ _ (hne k2 hk2)]
        exact ha k2 (List.mem_cons_of_mem _ hk2))
    simp only [remove_xattrs_in_turn, hrem]
    refine ⟨?_, ?_, ?_⟩
    · rw [i1]; rfl
    · intro k2 hk2
      rcases List.mem_cons.mp hk2 with e | hin
      · subst e
        rw [i3 k2 hk, set_xattrs_table, xattr_find_erase_same]
      · exact i2 k2 hin
    · intro k2 hk2
      simp only [List.mem_cons, not_or] at hk2
      rw [i3 k2 hk2.2, set_xattrs_table, xattr_find_erase_other _ _ _ hk2.1]

/-! ## Properties of the specification, C1 to C13 -/

/-- C1 (code defect): in a directory of n = 5 positions, readdir with offset 2
and count 10 stops its loop at position max_read = min (5 - 2) 10 = 3: it
returns the child at position 2 alone with num_read = 1, where the children at
positions 2, 3 and 4 are owed. -/
theorem fskit_readdir_offset_window_short :
    (fskit_readdir demo_env (demo_state demo_children5) 7 2 10 0 0).dents.map dir_entry_list
      = some [{ type := FSKIT_ENTRY_TYPE_FILE, file_id := 2, name := "c" }] ∧
    (fskit_readdir demo_env (demo_state demo_children5) 7 2 10 0 0).num_read = 1 ∧
    spec_listing demo_env (demo_entries demo_children5) 1 (List.range' 2 (min (2 + 10) 5 - 2))
      = [{ type := FSKIT_ENTRY_TYPE_FILE, file_id := 2, name := "c" },
         { type := FSKIT_ENTRY_TYPE_FILE, file_id := 3, name := "d" },
         { type := FSKIT_ENTRY_TYPE_FILE, file_id := 4, name := "e" }] := by
  decide

/-- C2 (code defect): at end of directory (offset 3 in a directory of 3
positions) readdir returns the empty list and leaves `*num_read` at the value
it held before the call, here 7, not at the number 0 of entries returned. -/
theorem fskit_readdir_eof_num_read_stale :
    (fskit_readdir demo_env (demo_state demo_children3) 7 3 10 7 0).dents = some [none] ∧
    ((fskit_readdir demo_env (demo_state demo_children3) 7 3 10 7 0).dents.map
      (fun l => (dir_entry_list l).length)) = some 0 ∧
    (fskit_readdir demo_env (demo_state demo_children3) 7 3 10 7 0).num_read = 7 := by
  decide

/-- C3: on a valid directory handle, with the locks granted and memory for the
one-slot list, readdir at an offset at or past the size of the child index
returns the empty list (a single NULL slot), leaves `*err` as it was and leaves
the memory as it was: no child is locked or copied and both locks are
released. -/
theorem fskit_readdir_eof_empty (env : Env) (st : fskit_state) (dirh dent : Ptr)
    (child_offset num_children num_read : Nat) (err : Int)
    (hd : (st.handles dirh).dent = some dent)
    (hh : env.handle_lock_rc dirh = 0) (he : env.entry_lock_rc dent = 0)
    (hm : env.calloc_list_ok 1 = true)
    (ho : (st.entries dent).children.length ≤ child_offset) :
    (fskit_readdir env st dirh child_offset num_children num_read err).dents = some [none] ∧
    dir_entry_list [none] = [] ∧
    (fskit_readdir env st dirh child_offset num_children num_read err).err = err ∧
    (fskit_readdir env st dirh child_offset num_children num_read err).st = st := by
  have e : (acquire st (LockTarget.handle dirh) LockMode.rd).handles dirh = st.handles dirh := rfl
  have e2 : (acquire (acquire st (LockTarget.handle dirh) LockMode.rd)
      (LockTarget.entry dent) LockMode.rd).entries = st.entries := rfl
  unfold fskit_readdir fskit_dir_handle_rlock fskit_entry_rlock fskit_readdir_lowlevel
  simp only [hh, if_true, ne_eq, not_true_eq_false, if_false, e, hd, he, e2, ho, CALLOC_LIST, hm,
    fskit_entry_unlock, fskit_dir_handle_unlock, release_acquire]
  simp [dir_entry_list]

/-- C3 on the directory `.`, `..`, `c` at offset 3, with `*err` holding -5. -/
theorem fskit_readdir_eof_empty_witness :
    (fskit_readdir demo_env (demo_state demo_children3) 7 3 10 7 (-5)).dents = some [none] ∧
    dir_entry_list [none] = [] ∧
    (fskit_readdir demo_env (demo_state demo_children3) 7 3 10 7 (-5)).err = -5 ∧
    (fskit_readdir demo_env (demo_state demo_children3) 7 3 10 7 (-5)).st
      = demo_state demo_children3 :=
  fskit_readdir_eof_empty demo_env (demo_state demo_children3) 7 1 3 10 7 (-5)
    (by decide) (by decide) (by decide) (by decide) (by decide)

/-- C4: with the locks granted and memory available, listdir on a valid handle
returns a list holding exactly one snapshot per live child of the directory,
in positional order, and (for a non-empty child index) sets `*num_read` to
their number; the slot hashed as `.` yields the type and file-id of the
directory itself, the slot hashed as `..` those of the entry it points to. -/
theorem fskit_listdir_lists_live_children (env : Env) (st : fskit_state) (dirh dent : Ptr)
    (num_read : Nat) (err : Int)
    (hd : (st.handles dirh).dent = some dent)
    (hh : env.handle_lock_rc dirh = 0) (hl : ∀ p, env.entry_lock_rc p = 0)
    (hm : ∀ n, env.calloc_list_ok n = true) (ha : ∀ nm, env.dir_entry_alloc_ok nm = true)
    (hn : (st.entries dent).children.length ≤ UINT64_MAX) :
    ∃ arr, (fskit_listdir env st dirh num_read err).dents = some arr ∧
      dir_entry_list arr
        = spec_listing env st.entries dent (List.range (st.entries dent).children.length) ∧
      (0 < (st.entries dent).children.length →
        (fskit_listdir env st dirh num_read err).num_read = (dir_entry_list arr).length) ∧
      (∀ i d fent, (st.entries dent).children[i]? = some d → d.child = some fent →
        d.name_hash = env.fskit_entry_name_hash "." →
        spec_skipped env st.entries dent i = false ∧
        spec_snapshot env st.entries dent i = some
          { type := (st.entries dent).type, file_id := (st.entries dent).file_id, name := "." }) ∧
      (∀ i d fent, (st.entries dent).children[i]? = some d → d.child = some fent →
        d.name_hash ≠ env.fskit_entry_name_hash "." →
        d.name_hash = env.fskit_entry_name_hash ".." →
        spec_skipped env st.entries dent i = false ∧
        spec_snapshot env st.entries dent i = some
          { type := (st.entries fent).type, file_id := (st.entries fent).file_id,
            name := ".." }) := by
  obtain ⟨arr, h⟩ := fskit_readdir_total env st dirh dent 0 UINT64_MAX num_read err hd hh hl hm
  obtain ⟨dent1, hd1, h1, h2, -⟩ := fskit_readdir_list env st dirh 0 UINT64_MAX num_read err arr h
  have hde : dent1 = dent := Option.some.inj (hd1.symm.trans hd)
  subst hde
  have hw : scan_window (st.entries dent1).children.length 0 UINT64_MAX
      = List.range (st.entries dent1).children.length := by
    unfold scan_window
    rw [List.range_eq_range']
    congr 1
    omega
  have hs : scan_at env st.entries dent1 = (fun i =>
      if spec_skipped env st.entries dent1 i then none
      else spec_snapshot env st.entries dent1 i) := by
    funext i
    exact scan_at_alloc env st.entries dent1 i ha
  refine ⟨arr, h, ?_, h2, ?_, ?_⟩
  · rw [h1, hw, hs]; rfl
  · intro i d fent e1 e2 e3
    unfold spec_skipped spec_snapshot
    simp [e1, e2, e3]
  · intro i d fent e1 e2 e3 e4
    unfold spec_skipped spec_snapshot
    simp only [e1, e2, if_neg e3, if_pos e4]
    simp [e4]

/-- C4 on the example of the specification: a directory holding `.`, `..` and one file
`c` lists as [".", "..", "c"] with num_read = 3. -/
theorem fskit_listdir_lists_live_children_witness :
    ∃ arr, (fskit_listdir demo_env (demo_state demo_children3) 7 0 0).dents = some arr ∧
      dir_entry_list arr
        = [{ type := FSKIT_ENTRY_TYPE_DIR, file_id := 1, name := "." },
           { type := FSKIT_ENTRY_TYPE_DIR, file_id := 0, name := ".." },
           { type := FSKIT_ENTRY_TYPE_FILE, file_id := 2, name := "c" }] ∧
      (fskit_listdir demo_env (demo_state demo_children3) 7 0 0).num_read = 3 := by
  obtain ⟨arr, h1, h2, h3, -⟩ := fskit_listdir_lists_live_children demo_env
    (demo_state demo_children3) 7 1 0 0 (by decide) (by decide) (fun _ => rfl) (fun _ => rfl)
    (fun _ => rfl) (by decide)
  have e : spec_listing demo_env (demo_state demo_children3).entries 1
      (List.range ((demo_state demo_children3).entries 1).children.length)
      = [{ type := FSKIT_ENTRY_TYPE_DIR, file_id := 1, name := "." },
         { type := FSKIT_ENTRY_TYPE_DIR, file_id := 0, name := ".." },
         { type := FSKIT_ENTRY_TYPE_FILE, file_id := 2, name := "c" }] := by decide
  refine ⟨arr, h1, h2.trans e, ?_⟩
  rw [h3 (by decide), h2, e]
  rfl

/-- C5: with the locks granted and memory for the list, readdir returns a list
each of whose entries is the snapshot of a position of the scanned window that
holds a child (no tombstone) which, when ordinary, has no deletion in
progress, is not dead and has a name; and, when no snapshot allocation fails,
every such position of the window has its snapshot in the list. -/
theorem fskit_readdir_skips_deleted (env : Env) (st : fskit_state) (dirh dent : Ptr)
    (child_offset num_children num_read : Nat) (err : Int)
    (hd : (st.handles dirh).dent = some dent)
    (hh : env.handle_lock_rc dirh = 0) (hl : ∀ p, env.entry_lock_rc p = 0)
    (hm : ∀ n, env.calloc_list_ok n = true) :
    ∃ arr, (fskit_readdir env st dirh child_offset num_children num_read err).dents = some arr ∧
      (∀ x ∈ dir_entry_list arr,
        ∃ i ∈ scan_window (st.entries dent).children.length child_offset num_children,
          spec_skipped env st.entries dent i = false ∧
          spec_snapshot env st.entries dent i = some x) ∧
      ((∀ nm, env.dir_entry_alloc_ok nm = true) →
        ∀ i ∈ scan_window (st.entries dent).children.length child_offset num_children,
          spec_skipped env st.entries dent i = false →
          ∃ x ∈ dir_entry_list arr, spec_snapshot env st.entries dent i = some x) := by
  obtain ⟨arr, h⟩ := fskit_readdir_total env st dirh dent child_offset num_children num_read err
    hd hh hl hm
  obtain ⟨dent1, hd1, h1, -, -⟩ :=
    fskit_readdir_list env st dirh child_offset num_children num_read err arr h
  have hde : dent1 = dent := Option.some.inj (hd1.symm.trans hd)
  subst hde
  refine ⟨arr, h, ?_, ?_⟩
  · intro x hx
    rw [h1, List.mem_filterMap] at hx
    obtain ⟨i, hi, hs⟩ := hx
    exact ⟨i, hi, scan_at_some env st.entries dent1 i x hs⟩
  · intro ha i hi hk
    obtain ⟨x, hx⟩ := spec_skipped_false_snapshot env st.entries dent1 i hk
    refine ⟨x, ?_, hx⟩
    rw [h1, List.mem_filterMap]
    refine ⟨i, hi, ?_⟩
    rw [scan_at_alloc env st.entries dent1 i ha, hk]
    simpa using hx

/-- C5 on a directory `.`, `..`, a tombstone, a child in deletion, a dead
child and the file `c`: the list is [".", "..", "c"]. -/
theorem fskit_readdir_skips_deleted_witness :
    (fskit_readdir demo_env (demo_state demo_children_gone) 7 0 10 0 0).dents.map dir_entry_list
      = some [{ type := FSKIT_ENTRY_TYPE_DIR, file_id := 1, name := "." },
           { type := FSKIT_ENTRY_TYPE_DIR, file_id := 0, name := ".." },
           { type := FSKIT_ENTRY_TYPE_FILE, file_id := 2, name := "c" }] ∧
    ∃ arr, (fskit_readdir demo_env (demo_state demo_children_gone) 7 0 10 0 0).dents = some arr ∧
      (∀ x ∈ dir_entry_list arr,
        ∃ i ∈ scan_window ((demo_state demo_children_gone).entries 1).children.length 0 10,
          spec_skipped demo_env (demo_state demo_children_gone).entries 1 i = false ∧
          spec_snapshot demo_env (demo_state demo_children_gone).entries 1 i = some x) ∧
      ((∀ nm, demo_env.dir_entry_alloc_ok nm = true) →
        ∀ i ∈ scan_window ((demo_state demo_children_gone).entries 1).children.length 0 10,
          spec_skipped demo_env (demo_state demo_children_gone).entries 1 i = false →
          ∃ x ∈ dir_entry_list arr,
            spec_snapshot demo_env (demo_state demo_children_gone).entries 1 i = some x) :=
  ⟨by decide, fskit_readdir_skips_deleted demo_env (demo_state demo_children_gone) 7 1 0 10 0 0
    (by decide) (by decide) (fun _ => rfl) (fun _ => rfl)⟩

/-- C6 (code defect): opendir of `/a/b` raises open_count from 0 to 1; closedir
of that handle returns 0 and frees the handle, yet open_count stays 1 where 0
is owed.  And closing the last handle (open_count 1) of a directory with
link-count 0 returns 0 and leaves the directory in place: its type is still
directory, it is not freed and its open_count is still 1. -/
theorem fskit_closedir_keeps_open_count :
    ((demo_state demo_children3).entries 1).open_count = 0 ∧
    (fskit_opendir demo_env (demo_state demo_children3) "/a/b" 0 0 0 0).dirh = some 10 ∧
    ((fskit_opendir demo_env (demo_state demo_children3) "/a/b" 0 0 0 0).st.entries 1).open_count
      = 1 ∧
    (fskit_closedir demo_env
      (fskit_opendir demo_env (demo_state demo_children3) "/a/b" 0 0 0 0).st 10 none none).rc
      = 0 ∧
    (fskit_closedir demo_env
      (fskit_opendir demo_env (demo_state demo_children3) "/a/b" 0 0 0 0).st 10 none none).st.freed
      = [LockTarget.handle 10] ∧
    ((fskit_closedir demo_env
      (fskit_opendir demo_env (demo_state demo_children3) "/a/b" 0 0 0 0).st 10 none
        none).st.entries 1).open_count = 1 ∧
    (demo_state_unlinked.entries 1).link_count = 0 ∧
    (demo_state_unlinked.entries 1).open_count = 1 ∧
    (fskit_closedir demo_env demo_state_unlinked 7 none none).rc = 0 ∧
    (fskit_closedir demo_env demo_state_unlinked 7 none none).st.freed = [LockTarget.handle 7] ∧
    ((fskit_closedir demo_env demo_state_unlinked 7 none none).st.entries 1).type
      = FSKIT_ENTRY_TYPE_DIR ∧
    ((fskit_closedir demo_env demo_state_unlinked 7 none none).st.entries 1).open_count = 1 := by
  decide

/-- C7, as amended: for a path whose parent resolves to a directory and whose
basename names a child of type directory (stored under its own name, not the
parent itself), unlink makes no type check: when destruction reports no error
it returns 0, the child is no longer found under the basename in the child
index of the parent, and its link-count is lowered by 1. -/
theorem fskit_unlink_detaches_directory (env : Env) (st : fskit_state) (path : String)
    (owner group : Nat) (path_dirname path_basename : String) (parent fent : Ptr)
    (hdn : env.fskit_dirname path = some path_dirname)
    (hbn : env.fskit_basename path = some path_basename)
    (hw : env.walk st.entries path_dirname owner group = .ok parent)
    (hp : (st.entries parent).type = FSKIT_ENTRY_TYPE_DIR)
    (hf : fskit_entry_set_find_name env (st.entries parent).children path_basename = some fent)
    (_ht : (st.entries fent).type = FSKIT_ENTRY_TYPE_DIR)
    (hname : (st.entries fent).name = some path_basename)
    (hne : fent ≠ parent)
    (hrc : env.destroy_rc fent = 0) :
    (fskit_unlink env st path owner group).1 = 0 ∧
    (fskit_unlink env st path owner group).1 ≠ -EISDIR ∧
    fskit_entry_set_find_name env
      ((fskit_unlink env st path owner group).2.entries parent).children path_basename = none ∧
    ((fskit_unlink env st path owner group).2.entries fent).link_count
      = (st.entries fent).link_count - 1 := by
  obtain ⟨d, hd, hd1, hd2⟩ := fskit_entry_set_find_name_some env _ _ _ hf
  have hany : (st.entries parent).children.any
      (fun d => decide (d.name = path_basename) && decide (d.child = some fent)) = true := by
    rw [List.any_eq_true]
    exact ⟨d, hd, by simp [hd1, hd2]⟩
  have hrem := fskit_entry_set_find_name_remove env (st.entries parent).children path_basename
  have hne2 : parent ≠ fent := fun h => hne h.symm
  have key : (fskit_unlink env st path owner group).1 = 0 ∧
      fskit_entry_set_find_name env
        ((fskit_unlink env st path owner group).2.entries parent).children path_basename = none ∧
      ((fskit_unlink env st path owner group).2.entries fent).link_count
        = (st.entries fent).link_count - 1 := by
    unfold fskit_unlink fskit_entry_resolve_path
    simp only [hdn, hbn, hw, if_true]
    have e : (acquire st (LockTarget.entry parent) LockMode.wr).entries = st.entries := rfl
    simp only [e, ne_eq, not_true_eq_false, if_false, hp, hf]
    have hname2 : ((fskit_entry_wlock env (acquire st (LockTarget.entry parent) LockMode.wr)
        fent).2.entries fent).name = some path_basename := by
      rw [fskit_entry_wlock_entries]; exact hname
    have hany2 : ((fskit_entry_wlock env (acquire st (LockTarget.entry parent) LockMode.wr)
        fent).2.entries parent).children.any
        (fun d => decide (d.name = path_basename) && decide (d.child = some fent)) = true := by
      rw [fskit_entry_wlock_entries]; exact hany
    obtain ⟨d1, d2, d3⟩ := fskit_entry_detach_lowlevel_ok
      (fskit_entry_wlock env (acquire st (LockTarget.entry parent) LockMode.wr) fent).2
      parent fent path_basename hname2 hany2 hne
    rw [fskit_entry_wlock_entries] at d2 d3
    obtain ⟨t1, t2, t3⟩ := fskit_entry_try_destroy_and_free_ok env
      (fskit_entry_detach_lowlevel
        (fskit_entry_wlock env (acquire st (LockTarget.entry parent) LockMode.wr) fent).2
        parent fent).2 fent hrc
    have t3p := t3 parent hne2
    generalize fskit_entry_detach_lowlevel
      (fskit_entry_wlock env (acquire st (LockTarget.entry parent) LockMode.wr) fent).2
      parent fent = det at d1 d2 d3 t1 t2 t3p
    obtain ⟨rc3, st3⟩ := det
    simp only at d1 d2 d3 t1 t2 t3p
    subst d1
    simp only [ne_eq, not_true_eq_false, false_and, if_false]
    generalize fskit_entry_try_destroy_and_free env st3 fent = tdf at t1 t2 t3p
    obtain ⟨rc4, st4⟩ := tdf
    simp only at t1 t2 t3p
    have e3 : (fskit_entry_unlock st4 parent).entries = st4.entries := rfl
    have e4 : (fskit_entry_unlock (fskit_entry_unlock st4 fent) parent).entries = st4.entries := rfl
    by_cases hpos : rc4 > 0
    · simp only [hpos, if_true, e3, t3p, d2, t2, d3]
      exact ⟨trivial, hrem, rfl⟩
    · have h0 : rc4 = 0 := by omega
      simp only [hpos, if_false, e4, t3p, d2, t2, d3]
      exact ⟨h0, hrem, rfl⟩
  exact ⟨key.1, by rw [key.1]; decide, key.2.1, key.2.2⟩

/-- C7 on the empty directory `/a/b`. -/
theorem fskit_unlink_detaches_directory_witness :
    (fskit_unlink demo_env (demo_state demo_children2) "/a/b" 0 0).1 = 0 ∧
    (fskit_unlink demo_env (demo_state demo_children2) "/a/b" 0 0).1 ≠ -EISDIR ∧
    fskit_entry_set_find_name demo_env
      ((fskit_unlink demo_env (demo_state demo_children2) "/a/b" 0 0).2.entries 0).children "b"
        = none ∧
    ((fskit_unlink demo_env (demo_state demo_children2) "/a/b" 0 0).2.entries 1).link_count
      = ((demo_state demo_children2).entries 1).link_count - 1 :=
  fskit_unlink_detaches_directory demo_env (demo_state demo_children2) "/a/b" 0 0 "/a" "b" 0 1
    (by decide) (by decide) rfl (by decide) (by decide) (by decide) (by decide) (by decide)
    (by decide)

/-- C7 as stated fails: `/a` is a directory, its child `b` is a directory, yet
unlink of `/a/b` does not return -EISDIR (it returns 0) and `b` does not stay
in the child index of `/a`. -/
theorem fskit_unlink_directory_not_eisdir :
    ((demo_state demo_children2).entries 0).type = FSKIT_ENTRY_TYPE_DIR ∧
    fskit_entry_set_find_name demo_env ((demo_state demo_children2).entries 0).children "b"
      = some 1 ∧
    ((demo_state demo_children2).entries 1).type = FSKIT_ENTRY_TYPE_DIR ∧
    (fskit_unlink demo_env (demo_state demo_children2) "/a/b" 0 0).1 = 0 ∧
    ¬ ((fskit_unlink demo_env (demo_state demo_children2) "/a/b" 0 0).1 = -EISDIR ∧
      fskit_entry_set_find_name demo_env
        ((fskit_unlink demo_env (demo_state demo_children2) "/a/b" 0 0).2.entries 0).children "b"
          = some 1) := by
  decide

/-- C8: when the parent of the path resolves (write-locked) to an entry that is
not a directory, unlink returns -ENOTDIR (-20); when it resolves to a directory
whose child index has no child under the basename, unlink returns -ENOENT
(-2); in both cases the memory is as before the call: the child index is
unchanged, nothing is detached or destroyed, and the lock on the parent is
released. -/
theorem fskit_unlink_parent_errors (env : Env) (st : fskit_state) (path : String)
    (owner group : Nat) (path_dirname path_basename : String) (parent : Ptr)
    (hdn : env.fskit_dirname path = some path_dirname)
    (hbn : env.fskit_basename path = some path_basename)
    (hw : env.walk st.entries path_dirname owner group = .ok parent)
    (h : (st.entries parent).type ≠ FSKIT_ENTRY_TYPE_DIR ∨
      fskit_entry_set_find_name env (st.entries parent).children path_basename = none) :
    fskit_unlink env st path owner group
      = (if (st.entries parent).type ≠ FSKIT_ENTRY_TYPE_DIR then -20 else -2, st) := by
  have e : (acquire st (LockTarget.entry parent) LockMode.wr).entries = st.entries := rfl
  unfold fskit_unlink fskit_entry_resolve_path
  simp only [hdn, hbn, hw, if_true, e, ne_eq, not_true_eq_false, if_false, fskit_entry_unlock,
    release_acquire, ENOTDIR, ENOENT]
  by_cases ht : (st.entries parent).type = FSKIT_ENTRY_TYPE_DIR
  · have hf := h.resolve_left (fun hne => hne ht)
    simp [ht, hf]
  · simp [ht]

/-- C8 on `/a/b/c/x` (the parent `/a/b/c` is a file) and on `/a/b/zz` (no such
child in `/a/b`). -/
theorem fskit_unlink_parent_errors_witness :
    fskit_unlink demo_env (demo_state demo_children3) "/a/b/c/x" 0 0
      = (-20, demo_state demo_children3) ∧
    fskit_unlink demo_env (demo_state demo_children3) "/a/b/zz" 0 0
      = (-2, demo_state demo_children3) :=
  ⟨fskit_unlink_parent_errors demo_env (demo_state demo_children3) "/a/b/c/x" 0 0 "/a/b/c" "x" 2
      (by decide) (by decide) rfl (Or.inl (by decide)),
   fskit_unlink_parent_errors demo_env (demo_state demo_children3) "/a/b/zz" 0 0 "/a/b" "zz" 1
      (by decide) (by decide) rfl (Or.inr (by decide))⟩

/-- C9: for a path within PATH_MAX that resolves to an entry whose type is not
directory, opendir returns NULL, sets `*err` to -ENOTDIR (-20), and leaves the
memory as it was: open_count is unchanged and the lock the resolver took on
the entry is released. -/
theorem fskit_opendir_not_a_directory (env : Env) (st : fskit_state) (_path : String)
    (user group app_handle_data : Nat) (err : Int) (dir : Ptr)
    (hlen : _path.utf8ByteSize < env.PATH_MAX)
    (hw : env.walk st.entries (env.fskit_sanitize_path _path) user group = .ok dir)
    (ht : (st.entries dir).type ≠ FSKIT_ENTRY_TYPE_DIR) :
    (fskit_opendir env st _path user group app_handle_data err).dirh = none ∧
    (fskit_opendir env st _path user group app_handle_data err).err = -20 ∧
    ((fskit_opendir env st _path user group app_handle_data err).st.entries dir).open_count
      = (st.entries dir).open_count ∧
    (fskit_opendir env st _path user group app_handle_data err).st.held = st.held ∧
    (fskit_opendir env st _path user group app_handle_data err).st = st := by
  have hn : ¬ (_path.utf8ByteSize ≥ env.PATH_MAX) := by omega
  have e : (acquire st (LockTarget.entry dir) LockMode.wr).entries = st.entries := rfl
  unfold fskit_opendir fskit_entry_resolve_path
  simp only [hn, if_false, hw, if_true, e, ne_eq, ht, not_false_eq_true, fskit_entry_unlock,
    release_acquire, ENOTDIR]
  simp

/-- C9 on the file `/a/b/c`. -/
theorem fskit_opendir_not_a_directory_witness :
    (fskit_opendir demo_env (demo_state demo_children3) "/a/b/c" 0 0 0 0).dirh = none ∧
    (fskit_opendir demo_env (demo_state demo_children3) "/a/b/c" 0 0 0 0).err = -20 ∧
    ((fskit_opendir demo_env (demo_state demo_children3) "/a/b/c" 0 0 0 0).st.entries 2).open_count
      = ((demo_state demo_children3).entries 2).open_count ∧
    (fskit_opendir demo_env (demo_state demo_children3) "/a/b/c" 0 0 0 0).st.held
      = (demo_state demo_children3).held ∧
    (fskit_opendir demo_env (demo_state demo_children3) "/a/b/c" 0 0 0 0).st
      = demo_state demo_children3 :=
  fskit_opendir_not_a_directory demo_env (demo_state demo_children3) "/a/b/c" 0 0 0 0 2
    (by decide) rfl (by decide)

/-- C10 (code defect): when `fskit_entry_try_destroy` reports an error (-5),
closedir returns it with the lock on the entry released but with the write
lock on the handle still held; the handle is neither freed nor changed.  The
return for a handle without entry (-EBADF) does release the handle lock. -/
theorem fskit_closedir_destroy_error_keeps_handle_lock :
    (demo_state demo_children3).held = [] ∧
    (fskit_closedir demo_env_destroy_fails (demo_state demo_children3) 7 none none).rc = -5 ∧
    (fskit_closedir demo_env_destroy_fails (demo_state demo_children3) 7 none none).st.held
      = [(LockTarget.handle 7, LockMode.wr)] ∧
    (fskit_closedir demo_env_destroy_fails (demo_state demo_children3) 7 none none).st.freed
      = [] ∧
    (fskit_closedir demo_env_destroy_fails (demo_state demo_children3) 7 none none).st.handles 7
      = (demo_state demo_children3).handles 7 ∧
    (fskit_closedir demo_env_destroy_fails (demo_state demo_children3) 8 none none).rc = -9 ∧
    (fskit_closedir demo_env_destroy_fails (demo_state demo_children3) 8 none none).st.held
      = [] := by
  decide

/-- C11: every list readdir returns has min (size - offset) count + 1 slots; the
snapshots written fill a front part of it, their number is at most
min (size - offset) count, every slot after them is NULL, and so the slot just
after the last snapshot is the NULL sentinel. -/
theorem fskit_readdir_list_fits (env : Env) (st : fskit_state) (dirh : Ptr)
    (child_offset num_children num_read : Nat) (err : Int)
    (arr : List (Option fskit_dir_entry))
    (hret : (fskit_readdir env st dirh child_offset num_children num_read err).dents
      = some arr) :
    ∃ dent, (st.handles dirh).dent = some dent ∧
      (dir_entry_list arr).length
        ≤ min ((st.entries dent).children.length - child_offset) num_children ∧
      arr.length = min ((st.entries dent).children.length - child_offset) num_children + 1 ∧
      arr = (dir_entry_list arr).map some ++ List.replicate
        (min ((st.entries dent).children.length - child_offset) num_children + 1
          - (dir_entry_list arr).length) none ∧
      arr[(dir_entry_list arr).length]? = some none := by
  obtain ⟨dent, hd, -, -, hl, -, -, -⟩ :=
    fskit_readdir_some env st dirh child_offset num_children num_read err arr hret
  refine ⟨dent, hd, ?_⟩
  have e : (acquire (acquire st (LockTarget.handle dirh) LockMode.rd)
      (LockTarget.entry dent) LockMode.rd).entries = st.entries := rfl
  rcases fskit_readdir_lowlevel_some env _ dent child_offset num_children num_read err arr hl with
    ⟨h1, h2, -⟩ | ⟨-, h2, -, h4, -⟩
  · rw [e] at h1
    have hz : min ((st.entries dent).children.length - child_offset) num_children = 0 := by
      omega
    subst h2
    rw [hz]
    simp [dir_entry_list]
  · rw [e] at h2 h4
    generalize List.filterMap (scan_at env st.entries dent)
      (scan_window (st.entries dent).children.length child_offset num_children) = snaps at h2 h4
    generalize min ((st.entries dent).children.length - child_offset) num_children = mr at h2 h4
    subst h2
    rw [dir_entry_list_filled]
    refine ⟨h4, ?_, rfl, ?_⟩
    · rw [List.length_append, List.length_map, List.length_replicate]; omega
    · obtain ⟨k, hk⟩ : ∃ k, mr + 1 - snaps.length = k + 1 := ⟨mr - snaps.length, by omega⟩
      rw [List.getElem?_append_right (by simp), hk]
      simp [List.replicate]

/-- C11 on a directory `.`, `..`, a tombstone, a child in deletion, a dead child
and the file `c`, read from offset 0 with count 10: seven slots, three
snapshots, the fourth slot is NULL. -/
theorem fskit_readdir_list_fits_witness :
    ∃ dent, ((demo_state demo_children_gone).handles 7).dent = some dent ∧
      (dir_entry_list demo_list_gone).length
        ≤ min (((demo_state demo_children_gone).entries dent).children.length - 0) 10 ∧
      demo_list_gone.length
        = min (((demo_state demo_children_gone).entries dent).children.length - 0) 10 + 1 ∧
      demo_list_gone = (dir_entry_list demo_list_gone).map some ++ List.replicate
        (min (((demo_state demo_children_gone).entries dent).children.length - 0) 10 + 1
          - (dir_entry_list demo_list_gone).length) none ∧
      demo_list_gone[(dir_entry_list demo_list_gone).length]? = some none :=
  fskit_readdir_list_fits demo_env (demo_state demo_children_gone) 7 0 10 0 0 demo_list_gone
    (by decide)

/-- C12: on a path that resolves to an entry, for every name absent from the
xattr table of the entry and every value, setxattr with XATTR_CREATE returns
0, then getxattr yields the value, then removexattr returns 0, and then
getxattr fails with not-found (-2).  After several distinct absent names were
set one after another (each setxattr returning 0), the same holds for each of
them; and removing them one after another returns 0 each time, after which
getxattr fails with not-found for each. -/
theorem xattr_round_trip_ok (env : Env) (s : fskit_xattr_state) (path : String)
    (user group : Nat) (fent : Ptr) (kvs : List (String × List Nat))
    (hw : ∀ es, env.walk es path user group = .ok fent)
    (hd : (kvs.map Prod.fst).Nodup)
    (ha : ∀ kv ∈ kvs, xattr_find (s.xattrs fent) kv.1 = none) :
    (∀ kv ∈ kvs, xattr_round_trip env s path user group kv.1 kv.2
      = (0, ((kv.2.length : Int), some kv.2), 0, -ENOENT)) ∧
    (set_xattrs_in_turn env path user group kvs s).1 = List.replicate kvs.length 0 ∧
    (∀ kv ∈ kvs,
      xattr_get_remove_get env (set_xattrs_in_turn env path user group kvs s).2
        path user group kv.1 = (((kv.2.length : Int), some kv.2), 0, -ENOENT)) ∧
    (remove_xattrs_in_turn env path user group (kvs.map Prod.fst)
      (set_xattrs_in_turn env path user group kvs s).2).1 = List.replicate kvs.length 0 ∧
    (∀ kv ∈ kvs,
      (fskit_getxattr env (remove_xattrs_in_turn env path user group (kvs.map Prod.fst)
        (set_xattrs_in_turn env path user group kvs s).2).2 path user group kv.1).1
        = -ENOENT) := by
  obtain ⟨s1, s2, -⟩ := set_xattrs_in_turn_spec env path user group fent hw kvs s hd ha
  obtain ⟨r1, r2, -⟩ := remove_xattrs_in_turn_spec env path user group fent hw
    (kvs.map Prod.fst) (set_xattrs_in_turn env path user group kvs s).2 hd
    (by
      intro k hk
      obtain ⟨kv, hkv, rfl⟩ := List.mem_map.mp hk
      exact ⟨kv.2, s2 kv hkv⟩)
  refine ⟨?_, s1, ?_, ?_, ?_⟩
  · intro kv hkv
    unfold xattr_round_trip
    rw [fskit_setxattr_create env s path user group fent kv.1 kv.2 hw (ha kv hkv)]
    simp only
    rw [xattr_get_remove_get_some env _ path user group fent kv.1 kv.2 hw
      (by rw [set_xattrs_table, xattr_find_insert_same])]
  · intro kv hkv
    exact xattr_get_remove_get_some env _ path user group fent kv.1 kv.2 hw (s2 kv hkv)
  · rw [r1, List.length_map]
  · intro kv hkv
    rw [fskit_getxattr_eq env _ path user group fent kv.1 hw,
      r2 kv.1 (List.mem_map_of_mem Prod.fst hkv)]

/-- C12 on the file `/a/b/c` with the two attributes `attr-name-0` and
`attr-name-1`. -/
theorem xattr_round_trip_ok_witness :
    (∀ kv ∈ demo_xattrs, xattr_round_trip demo_env demo_xattr_state "/a/b/c" 0 0 kv.1 kv.2
      = (0, ((kv.2.length : Int), some kv.2), 0, -ENOENT)) ∧
    (set_xattrs_in_turn demo_env "/a/b/c" 0 0 demo_xattrs demo_xattr_state).1
      = List.replicate demo_xattrs.length 0 ∧
    (∀ kv ∈ demo_xattrs,
      xattr_get_remove_get demo_env
        (set_xattrs_in_turn demo_env "/a/b/c" 0 0 demo_xattrs demo_xattr_state).2
        "/a/b/c" 0 0 kv.1 = (((kv.2.length : Int), some kv.2), 0, -ENOENT)) ∧
    (remove_xattrs_in_turn demo_env "/a/b/c" 0 0 (demo_xattrs.map Prod.fst)
      (set_xattrs_in_turn demo_env "/a/b/c" 0 0 demo_xattrs demo_xattr_state).2).1
      = List.replicate demo_xattrs.length 0 ∧
    (∀ kv ∈ demo_xattrs,
      (fskit_getxattr demo_env (remove_xattrs_in_turn demo_env "/a/b/c" 0 0
        (demo_xattrs.map Prod.fst)
        (set_xattrs_in_turn demo_env "/a/b/c" 0 0 demo_xattrs demo_xattr_state).2).2
        "/a/b/c" 0 0 kv.1).1 = -ENOENT) :=
  xattr_round_trip_ok demo_env demo_xattr_state "/a/b/c" 0 0 2 demo_xattrs
    (fun _ => rfl) (by decide) (fun _ _ => rfl)

/-- C13 (code defect): on a directory holding a child whose deletion is in
progress (entry 5) and a dead child (entry 6), readdir returns its list while
the read locks it took on these two children are still held: the branch that
skips such a child continues the loop without unlocking it.  No entry lock was
held before the call.  On a directory without such a child nothing stays
locked. -/
theorem fskit_readdir_leaks_skipped_child_locks :
    (demo_state demo_children_gone).held = [] ∧
    (fskit_readdir demo_env (demo_state demo_children_gone) 7 0 10 0 0).dents.map dir_entry_list
      = some [{ type := FSKIT_ENTRY_TYPE_DIR, file_id := 1, name := "." },
           { type := FSKIT_ENTRY_TYPE_DIR, file_id := 0, name := ".." },
           { type := FSKIT_ENTRY_TYPE_FILE, file_id := 2, name := "c" }] ∧
    (fskit_readdir demo_env (demo_state demo_children_gone) 7 0 10 0 0).st.held
      = [(LockTarget.entry 6, LockMode.rd), (LockTarget.entry 5, LockMode.rd)] ∧
    (fskit_readdir demo_env (demo_state demo_children3) 7 0 10 0 0).st.held = [] := by
  decide

end Fskit
